import Mathlib

/-!
Verification development for the ERP order synchronization engine
(`ErpOrder.py`, class `ErpIntegration`).  The Python code is shallowly
embedded: SQL tables become lists of rows, the pyodbc connection becomes an
explicit `Conn` record carrying the committed and the pending (uncommitted)
database images, and every statement of the engine becomes a pure function.

Faithfulness notes on the embedding of the database layer:
* `execute_non_query` in the source calls `cursor.commit()` after every
  statement; in pyodbc that commits the whole connection.  The embedding
  reproduces this: every non-query write copies the pending image into the
  committed image.
* `execute_query` (used for the two OUTPUT-INSERTED inserts) does not commit.
* `rollback` restores the pending image from the committed image.
* SQL `FLOAT` arithmetic is idealized as exact rational arithmetic (`ℚ`);
  `ROUND(x, 2)` is half-away-from-zero rounding, Python `round(x, 2)` is
  half-to-even rounding.  Division by zero follows the Lean convention
  `x / 0 = 0`; theorems about quotients are stated for nonzero denominators.
* Dates (`效期`, `生产日期`) are embedded as `Nat` keys; the source orders
  them by `CONVERT(VARCHAR(20), d, 120)`, whose lexicographic order agrees
  with the chronological order modelled here.
* Failure injection: write statements are numbered by `Conn.writeIdx`; a
  write whose index is listed in the `sched` argument raises (models a
  database write error), which the engine's exception handler turns into a
  rollback and a failed outcome.
-/

/-- SQL Server ROUND(x, 2): round half away from zero to 2 decimals. -/
def sqlRound2 (x : ℚ) : ℚ :=
  if 0 ≤ x then (⌊x * 100 + 1/2⌋ : ℚ) / 100 else -((⌊(-x) * 100 + 1/2⌋ : ℚ) / 100)

/-- Python round(x, 2): round half to even to 2 decimals (used for 件数). -/
def pyRound2 (x : ℚ) : ℚ :=
  let r := x * 100
  let f : ℤ := ⌊r⌋
  let q : ℚ := r - (f : ℚ)
  (if q < 1/2 then (f : ℚ)
   else if 1/2 < q then (f : ℚ) + 1
   else if f % 2 = 0 then (f : ℚ) else (f : ℚ) + 1) / 100

/-- SQL CASE WHEN ISNULL(x,0) <= 0 THEN 0 ELSE x END, applied to a nullable
quantity column. -/
def clampPos (o : Option ℚ) : ℚ :=
  match o with
  | none => 0
  | some v => if v ≤ 0 then 0 else v

/-- RIGHT(s, LEN(s)-3) as used in the source, identical to Python s[3:]:
strips the 3-character schema marker from a product reference. -/
def strip3 (s : String) : String := s.drop 3

/-- One entry of order_data['split_rules'] (fields read with dict.get, so both
are nullable). -/
structure SplitRule where
  ruleNo : Option Int
  value : Option String
deriving DecidableEq

/-- One entry of item['promotions']. -/
structure Promotion where
  promotionType : Int
deriving DecidableEq

/-- item['price_records']. -/
structure PriceRecords where
  salePrice : ℚ
  weightWholePrice : ℚ
  singleAllDiscountFee : ℚ
deriving DecidableEq

/-- One entry of order_data['order_goods'].  `erpStockId = ""` models a
missing/falsy erp_stock_id (no pre-selected batch hint). -/
structure OrderGood where
  erpGoodsId : String
  quantity : ℚ
  priceRecords : PriceRecords
  isGift : Int
  promotions : List Promotion
  erpStockId : String
  selectedBatchCode : String
  selectedBatchTimes : Int
deriving DecidableEq

/-- The order_data dictionary handed to sync_order.  `erpCustomerId = ""`
models a missing/falsy erp_customer_id. -/
structure OrderData where
  id : Int
  subOrderSn : String
  createdAt : String
  erpCustomerId : String
  erpCustomerNo : String
  payMethod : String
  source : String
  message : String
  orderDiscountTotal : ℚ
  goodsTotalFee : ℚ
  subOrderTotalFee : ℚ
  orderGoods : List OrderGood
  splitRules : List SplitRule
deriving DecidableEq

/-- The customer row returned by get_customer_info (only the columns the
engine reads). -/
structure Customer where
  cid : Int
  defaultSalePrice : Int
  exchangeType : Int
  transportMode : Int
  bookkeepMode : Int
  addressId : Int
  salesmanId : Int
  billerId : Int
  userId : Int
deriving DecidableEq

/-- Row of _SheetRoots (DocumentRoot).  stateFlowId none models the initial
empty-string pointer. -/
structure SheetRoot where
  rid : Int
  typeId : Int
  no : String
  date : String
  operator : Int
  status : Int
  stateFlowId : Option Int
  syncState : Int
  caption : String
deriving DecidableEq

/-- Row of _StatusFlow (WorkflowStatus). -/
structure StatusFlow where
  fid : Int
  sheetTypeId : Int
  sheetId : Int
  command : String
  status : Int
  syncState : Int
  date : String
  operator : Int
deriving DecidableEq

/-- Row of Sheet_销售订单 (OrderHeader). -/
structure SheetOrder where
  rid : Int
  no : String
  date : String
  customer : Int
  settleCustomer : Int
  refCustomer : Int
  salesman : Int
  orderOperator : Int
  biller : Int
  staffDept : Int
  bookkeeper : Int
  bookkeepMode : Int
  exchangeType : Int
  transportMode : Int
  memberLevel : Int
  defaultSalePrice : Int
  remark : String
  customerNote : String
  guid : String
  company : Int
  logistics : Int
  address : Int
  totalFee : ℚ
  outFee : ℚ
  refundTotalFee : ℚ
deriving DecidableEq

/-- Row of Sheet_销售订单_明细 (OrderLineDetail). -/
structure OrderDetail where
  pid : Int
  rid : Int
  origGoods : String
  goods : String
  batchTimes : Int
  bz : ℚ
  quantity : ℚ
  pieces : ℚ
  price : ℚ
  defaultSalePrice : ℚ
  taxRate : ℚ
  outTaxRate : ℚ
  amount : ℚ
  profit : ℚ
  profitRate : ℚ
  isGift : Int
  company : Int
  logistics : Int
  preDiscountPrice : ℚ
  postDiscountPrice : ℚ
  remark : String
  returnPrice : ℚ
  returnAmount : ℚ
  returnDiff : ℚ
  assessPrice : ℚ
  assessAmount : ℚ
deriving DecidableEq

/-- Row of T_YIIDELIVERY_YQYK174 (BookkeepingRecord); the GETDATE() column is
not modelled. -/
structure MidOrder where
  orderNumber : String
  erpCustomerId : String
  syncStatus : Int
deriving DecidableEq

/-- Row of Specific_批次商品 (production lot of a product). -/
structure SpecificRow where
  oid : String
  printBatchNo : String
  sid : Int
  expiry : Nat
  prodDate : Nat
deriving DecidableEq

/-- Row of Book_商品开票库存账_WMS_sum (inventory ledger), with the
left-joined 考核价Y column of Assign_批次ABC价账 flattened in as assessY. -/
structure StockRow where
  product : String
  batchTimes : Int
  batchNo : String
  bz : ℚ
  qty : Option ℚ
  inTransit : Option ℚ
  concurrent : Option ℚ
  company : Option Int
  btype : Option Int
  costAmount : ℚ
  assessY : Option ℚ
deriving DecidableEq

/-- The dictionary produced by get_item_batch's SELECT list. -/
structure BatchInfo where
  batch_code : String
  batch_times : Int
  bz : ℚ
  concurrent : Option ℚ
  assessY : ℚ
  qty : ℚ
deriving DecidableEq

/-- The dictionary produced by get_item_tax_info. -/
structure TaxInfo where
  taxRate : ℚ
  outTaxRate : ℚ
deriving DecidableEq

/-- The dictionary produced by get_item_profit. -/
structure ProfitInfo where
  profit : ℚ
  profit_rate : ℚ
deriving DecidableEq

/-- The tables of one database namespace that the engine touches. -/
structure Tables where
  sheetRoots : List SheetRoot
  statusFlows : List StatusFlow
  sheetOrders : List SheetOrder
  orderDetails : List OrderDetail
  midOrders : List MidOrder
  specifics : List SpecificRow
  stock : List StockRow
deriving DecidableEq

/-- The herbal schema marker returned by the namespace routing rule. -/
def nsHerb : String := "Biz_凯归众民中药SCM.dbo."

/-- The standard schema marker returned by the namespace routing rule. -/
def nsStd : String := "Biz_凯归众民SCM.dbo."

/-- The two parallel physical databases selected by the namespace marker. -/
structure DB where
  herb : Tables
  std : Tables
deriving DecidableEq

def DB.get (db : DB) (ns : String) : Tables :=
  if ns = nsHerb then db.herb else db.std

def DB.set (db : DB) (ns : String) (t : Tables) : DB :=
  if ns = nsHerb then { db with herb := t } else { db with std := t }

/-- Observable events of one connection: per-statement commits issued by
execute_non_query, the transaction commit of sync_order, rollbacks, and the
outbound success notification (carrying the order's upstream id). -/
inductive Ev where
  | stmtCommit : Ev
  | txCommit : Ev
  | rollbackEv : Ev
  | notifyEv : Int → Ev
deriving DecidableEq

/-- The pyodbc connection: committed database image, pending (in-transaction)
image, the OUTPUT-INSERTED id generator, the write-statement counter used for
failure injection, and the event trace. -/
structure Conn where
  committed : DB
  pending : DB
  nextId : Int
  writeIdx : Nat
  events : List Ev

/-- Read-only collaborator data: the customer master join of
get_customer_info and the info_商品 tax lookup, both namespace-scoped, plus
the configuration values the engine reads. -/
structure Env where
  customers : String → String → Option Customer
  taxInfo : String → String → Option TaxInfo
  systemUserId : Int
  defaultDepartment : Int

/-- db_conn.rollback(): discard the pending image. -/
def rollback (c : Conn) : Conn :=
  { c with pending := c.committed, events := c.events ++ [Ev.rollbackEv] }

/-- db_conn.commit() at the end of sync_order: the transaction commit. -/
def txcommit (c : Conn) : Conn :=
  { c with committed := c.pending, events := c.events ++ [Ev.txCommit] }

/-- An INSERT ... OUTPUT INSERTED._id executed through execute_query: writes
the pending image only (no commit), returns the generated id; `none` models a
raised write error. -/
def execInsertReturningId (sched : List Nat) (ns : String)
    (upd : Int → Tables → Tables) (c : Conn) : Option Int × Conn :=
  if c.writeIdx ∈ sched then
    (none, { c with writeIdx := c.writeIdx + 1 })
  else
    (some c.nextId,
     { c with pending := c.pending.set ns (upd c.nextId (c.pending.get ns)),
              nextId := c.nextId + 1,
              writeIdx := c.writeIdx + 1 })

/-- A write executed through execute_non_query: updates the pending image and
then calls cursor.commit(), which in pyodbc commits the whole connection —
the committed image becomes the pending image.  `none` models a raised write
error (the statement then has no effect and nothing is committed). -/
def execNonQueryW (sched : List Nat) (ns : String)
    (upd : Tables → Tables) (c : Conn) : Option Unit × Conn :=
  if c.writeIdx ∈ sched then
    (none, { c with writeIdx := c.writeIdx + 1 })
  else
    let pend := c.pending.set ns (upd (c.pending.get ns))
    (some (),
     { c with pending := pend, committed := pend,
              writeIdx := c.writeIdx + 1,
              events := c.events ++ [Ev.stmtCommit] })

/-- get_database_prefix: the herbal namespace marker is chosen exactly when
some split rule with rule_no 4 has value 中药饮片.  A pure function of the
order's split rules.  (Name shortened to satisfy local naming rules.) -/
def get_database_pfx (o : OrderData) : String :=
  if o.splitRules.any (fun r => r.ruleNo == some 4 && r.value == some "中药饮片")
  then nsHerb else nsStd

/-- get_source: order source channel label. -/
def get_source (s : String) : String :=
  if s = "wechat" then "微信"
  else if s = "app" then "APP"
  else if s = "web" then "网页"
  else if s = "mini_program" then "小程序"
  else "未知来源"

/-- discount_msg of insert_sheet_order. -/
def discount_msg (o : OrderData) : String :=
  if 0 < o.orderDiscountTotal then "订单优惠:" ++ toString o.orderDiscountTotal else ""

/-- payment_status of insert_sheet_order (the online-paid marker). -/
def payment_status (o : OrderData) : String :=
  if o.payMethod = "线上支付" then "线上已付款;" else ""

/-- The 备注 column written by insert_sheet_order. -/
def combined_remark (o : OrderData) : String :=
  get_source o.source ++ ";" ++ o.payMethod ++ ";" ++ discount_msg o

/-- The 客户备注 column written by insert_sheet_order. -/
def customer_note (o : OrderData) : String :=
  payment_status o ++ o.message

/-- promotion_types mapping of build_item_remark. -/
def promotion_label (n : Int) : String :=
  if n = 0 then "优惠券"
  else if n = 1 then "采满"
  else if n = 2 then "特价"
  else if n = 3 then "套餐"
  else if n = 4 then "拼团"
  else if n = 5 then "全场促销"
  else if n = 6 then "积分抵现"
  else if n = 7 then "预付金"
  else if n = 8 then "积分商城兑换"
  else "普通商品"

/-- build_item_remark. -/
def build_item_remark (item : OrderGood) : String :=
  let promotions :=
    String.intercalate "," (item.promotions.map (fun p => promotion_label p.promotionType))
  let discount := item.priceRecords.singleAllDiscountFee * item.quantity
  let dmsg := if 0 < discount then "优惠金额:" ++ toString discount else ""
  promotions ++ ";" ++ dmsg

/-- The qty column of get_item_batch:
ISNULL(b.数量 - CASE ... 在提数量 ... - CASE ... 并发数量 ..., 0). -/
def availQty (b : StockRow) : ℚ :=
  match b.qty with
  | none => 0
  | some q => q - clampPos b.inTransit - clampPos b.concurrent

/-- The FROM clause of get_item_batch: Specific_批次商品 a LEFT JOIN the
ledger b ON a._oid = b.商品 AND a._id = b.批次商品 AND b.类型 = 0.  A-rows
without a ledger match carry all-NULL b-columns and are always rejected by
the qty > 0 filter, so the join is embedded as the inner join. -/
def batchJoin (t : Tables) : List (SpecificRow × StockRow) :=
  t.specifics.flatMap fun a =>
    (t.stock.filter fun b =>
      b.product == a.oid && b.batchTimes == a.sid && b.btype == some 0).map
      fun b => (a, b)

/-- The WHERE clause of get_item_batch; the pre-selected-batch filter is
active when the item carries a truthy erp_stock_id. -/
def batchWhere (item : OrderGood) (x : SpecificRow × StockRow) : Bool :=
  !(x.1.oid == "-1") &&
  (x.2.company.getD 1 == 1) &&
  (x.2.btype.getD 0 == 0) &&
  (x.1.oid == strip3 item.erpGoodsId) &&
  (item.erpStockId == "" ||
    (x.1.printBatchNo == item.selectedBatchCode &&
     x.1.sid == item.selectedBatchTimes)) &&
  decide (0 < availQty x.2)

/-- ORDER BY key: ascending 效期, then 生产日期, then 包装. -/
def batchKey (x : SpecificRow × StockRow) : Nat × Nat × ℚ :=
  (x.1.expiry, x.1.prodDate, x.2.bz)

/-- Strict lexicographic comparison of ORDER BY keys. -/
def keyLtB (a b : Nat × Nat × ℚ) : Bool :=
  decide (a.1 < b.1) ||
  (a.1 == b.1 &&
    (decide (a.2.1 < b.2.1) ||
     (a.2.1 == b.2.1 && decide (a.2.2 < b.2.2))))

/-- TOP 1 under the ORDER BY: the first row that is minimal for the key
(stable: an earlier row wins ties, matching a stable sort). -/
def pickMinBy (key : α → Nat × Nat × ℚ) (l : List α) : Option α :=
  l.foldl
    (fun acc x =>
      match acc with
      | none => some x
      | some m => if keyLtB (key x) (key m) then some x else some m)
    none

/-- The eligible rows of get_item_batch for one line against one namespace's
tables. -/
def eligibleBatches (t : Tables) (item : OrderGood) : List (SpecificRow × StockRow) :=
  (batchJoin t).filter (batchWhere item)

/-- get_item_batch: the SELECT list projected from the TOP-1 row, or none. -/
def get_item_batch (t : Tables) (item : OrderGood) : Option BatchInfo :=
  (pickMinBy batchKey (eligibleBatches t item)).map fun x =>
    { batch_code := x.1.printBatchNo
      batch_times := x.1.sid
      bz := x.2.bz
      concurrent := x.2.concurrent
      assessY := x.2.assessY.getD 0
      qty := availQty x.2 }

/-- get_item_tax_info: info_商品 lookup with 0.0 defaults. -/
def get_item_tax_info (env : Env) (ns : String) (item : OrderGood) : TaxInfo :=
  (env.taxInfo ns (strip3 item.erpGoodsId)).getD { taxRate := 0, outTaxRate := 0 }

/-- get_item_profit: joins the ledger row matching product, batch code and
batch identifier; computes
ROUND(price*qty - (进价金额/数量)*qty, 2) and
ROUND((price*qty - (进价金额/数量)*qty)/(price*qty), 2)*100;
defaults to zeros when no row matches.  The booked quantity is taken with
`Option.getD 0`; the NULL / zero booked-quantity edge (a SQL error or NULL)
is outside the embedding and excluded by hypotheses where it matters. -/
def get_item_profit (t : Tables) (item : OrderGood) (batch : BatchInfo) : ProfitInfo :=
  match t.stock.filter (fun b =>
      b.product == strip3 item.erpGoodsId &&
      b.batchNo == batch.batch_code &&
      b.batchTimes == batch.batch_times) with
  | [] => { profit := 0, profit_rate := 0 }
  | b :: _ =>
    let pn := item.priceRecords.salePrice * item.quantity
    let costPart := (b.costAmount / b.qty.getD 0) * item.quantity
    { profit := sqlRound2 (pn - costPart)
      profit_rate := sqlRound2 ((pn - costPart) / pn) * 100 }

/-- order_exists: SELECT 1 FROM Sheet_销售订单 WHERE _no = sub_order_sn,
evaluated against the connection's pending image (a transaction sees its own
writes). -/
def order_exists (o : OrderData) (ns : String) (c : Conn) : Bool :=
  (c.pending.get ns).sheetOrders.any fun r => r.no == o.subOrderSn

/-- insert_sheet_roots: INSERT INTO _SheetRoots ... OUTPUT INSERTED._id
VALUES (184, no, date, customer._userId, 2, '', 0, '金砖天网订单'). -/
def insert_sheet_roots (sched : List Nat) (o : OrderData) (cust : Customer)
    (ns : String) (c : Conn) : Option Int × Conn :=
  execInsertReturningId sched ns
    (fun i t =>
      { t with sheetRoots := t.sheetRoots ++
          [{ rid := i, typeId := 184, no := o.subOrderSn, date := o.createdAt,
             operator := cust.userId, status := 2, stateFlowId := none,
             syncState := 0, caption := "金砖天网订单" }] })
    c

/-- insert_status_flow: INSERT INTO _StatusFlow ... OUTPUT INSERTED._id
VALUES (184, rootId, '天网自动订单', 1, 0, date, system_user_id). -/
def insert_status_flow (sched : List Nat) (env : Env) (o : OrderData)
    (rootId : Int) (ns : String) (c : Conn) : Option Int × Conn :=
  execInsertReturningId sched ns
    (fun i t =>
      { t with statusFlows := t.statusFlows ++
          [{ fid := i, sheetTypeId := 184, sheetId := rootId,
             command := "天网自动订单", status := 1, syncState := 0,
             date := o.createdAt, operator := env.systemUserId }] })
    c

/-- update_sheet_root_status: UPDATE _SheetRoots SET stateFlowId = ?
WHERE _id = ?. -/
def update_sheet_root_status (sched : List Nat) (rootId flowId : Int)
    (ns : String) (c : Conn) : Option Unit × Conn :=
  execNonQueryW sched ns
    (fun t =>
      { t with sheetRoots := t.sheetRoots.map fun r =>
          if r.rid == rootId then { r with stateFlowId := some flowId } else r })
    c

/-- The header row written by insert_sheet_order (column values of the
source, remark composition included). -/
def headerRow (env : Env) (rootId : Int) (o : OrderData) (cust : Customer) :
    SheetOrder :=
  { rid := rootId, no := o.subOrderSn, date := o.createdAt,
    customer := cust.cid, settleCustomer := cust.cid,
    refCustomer := cust.cid, salesman := cust.salesmanId,
    orderOperator := cust.billerId, biller := cust.billerId,
    staffDept := env.defaultDepartment, bookkeeper := -1,
    bookkeepMode := cust.bookkeepMode,
    exchangeType := cust.exchangeType,
    transportMode := cust.transportMode, memberLevel := -1,
    defaultSalePrice := cust.defaultSalePrice,
    remark := combined_remark o, customerNote := customer_note o,
    guid := o.subOrderSn, company := 1, logistics := 1,
    address := cust.addressId, totalFee := o.goodsTotalFee,
    outFee := o.goodsTotalFee, refundTotalFee := o.subOrderTotalFee }

/-- insert_sheet_order: INSERT INTO Sheet_销售订单. -/
def insert_sheet_order (sched : List Nat) (env : Env) (rootId : Int)
    (o : OrderData) (cust : Customer) (ns : String) (c : Conn) : Option Unit × Conn :=
  execNonQueryW sched ns
    (fun t => { t with sheetOrders := t.sheetOrders ++ [headerRow env rootId o cust] })
    c

/-- The detail row written by insert_order_details for one allocated line. -/
def detailRow (rootId : Int) (idx : Int) (item : OrderGood) (batch : BatchInfo)
    (tax : TaxInfo) (profitInfo : ProfitInfo) (remark : String) : OrderDetail :=
  { pid := rootId, rid := idx,
    origGoods := strip3 item.erpGoodsId, goods := strip3 item.erpGoodsId,
    batchTimes := batch.batch_times, bz := batch.bz,
    quantity := item.quantity,
    pieces := pyRound2 (item.quantity / batch.bz),
    price := item.priceRecords.salePrice,
    defaultSalePrice := item.priceRecords.weightWholePrice,
    taxRate := tax.taxRate, outTaxRate := tax.outTaxRate,
    amount := item.priceRecords.salePrice * item.quantity,
    profit := profitInfo.profit, profitRate := profitInfo.profit_rate,
    isGift := item.isGift, company := 1, logistics := 1,
    preDiscountPrice := item.priceRecords.weightWholePrice,
    postDiscountPrice := item.priceRecords.salePrice,
    remark := remark,
    returnPrice := item.priceRecords.salePrice,
    returnAmount := item.priceRecords.salePrice * item.quantity,
    returnDiff := (item.priceRecords.weightWholePrice -
                   item.priceRecords.salePrice) * item.quantity,
    assessPrice := batch.assessY,
    assessAmount := batch.assessY * item.quantity }

/-- The per-row effect of update_stock_concurrency's UPDATE: rows matching
公司机构 = 1, product, batch identifier and pack size (plus the redundant
ISNULL clauses of the WHERE) get 并发数量 = 并发数量 + qty (SQL NULL + q
stays NULL); all other rows are untouched. -/
def stockUpdRow (item : OrderGood) (batch : BatchInfo) (b : StockRow) : StockRow :=
  if b.company == some 1 &&
     b.product == strip3 item.erpGoodsId &&
     b.batchTimes == batch.batch_times &&
     decide (b.bz = batch.bz) &&
     b.company.getD 1 == 1 &&
     b.btype.getD 0 == 0 then
    { b with concurrent := b.concurrent.map (· + item.quantity) }
  else b

/-- update_stock_concurrency: UPDATE the ledger SET 并发数量 = 并发数量 + qty
scoped by 公司机构 = 1, product, batch identifier, pack size, namespace. -/
def update_stock_concurrency (sched : List Nat) (item : OrderGood)
    (batch : BatchInfo) (ns : String) (c : Conn) : Option Unit × Conn :=
  execNonQueryW sched ns
    (fun t => { t with stock := t.stock.map (stockUpdRow item batch) })
    c

/-- The loop body of insert_order_details: 1-indexed enumeration (a skipped
line still consumes its index), per-line batch allocation, tax, profit,
remark, detail insert, reservation update; a missing batch skips the line. -/
def insertDetailsLoop (sched : List Nat) (env : Env) (ns : String)
    (rootId : Int) : List OrderGood → Int → Conn → Option Unit × Conn
  | [], _, c => (some (), c)
  | item :: rest, idx, c =>
    match get_item_batch (c.pending.get ns) item with
    | none => insertDetailsLoop sched env ns rootId rest (idx + 1) c
    | some batch =>
      let tax := get_item_tax_info env ns item
      let profitInfo := get_item_profit (c.pending.get ns) item batch
      let remark := build_item_remark item
      match execNonQueryW sched ns
          (fun t =>
            { t with orderDetails := t.orderDetails ++
                [detailRow rootId idx item batch tax profitInfo remark] })
          c with
      | (none, c') => (none, c')
      | (some _, c') =>
        match update_stock_concurrency sched item batch ns c' with
        | (none, c'') => (none, c'')
        | (some _, c'') => insertDetailsLoop sched env ns rootId rest (idx + 1) c''

/-- insert_order_details: the enumerate(..., start=1) loop. -/
def insert_order_details (sched : List Nat) (env : Env) (ns : String)
    (rootId : Int) (o : OrderData) (c : Conn) : Option Unit × Conn :=
  insertDetailsLoop sched env ns rootId o.orderGoods 1 c

/-- order_details_exist: SELECT COUNT(1) ... WHERE _pid = ?, then cnt > 0. -/
def order_details_exist (rootId : Int) (ns : String) (c : Conn) : Bool :=
  decide (0 < ((c.pending.get ns).orderDetails.countP fun d => d.pid == rootId))

/-- save_mid_order: INSERT INTO T_YIIDELIVERY_YQYK174 (order number, customer
reference, sync status 0, GETDATE()). -/
def save_mid_order (sched : List Nat) (o : OrderData) (ns : String)
    (c : Conn) : Option Unit × Conn :=
  execNonQueryW sched ns
    (fun t =>
      { t with midOrders := t.midOrders ++
          [{ orderNumber := o.subOrderSn, erpCustomerId := o.erpCustomerId,
             syncStatus := 0 }] })
    c

/-- notify_order_sync_success: POST to the sync-status endpoint; send_request
swallows request exceptions, so this never raises — the embedding records the
observable call as an event. -/
def notify_order_sync_success (o : OrderData) (c : Conn) : Conn :=
  { c with events := c.events ++ [Ev.notifyEv o.id] }

/-- Body of sync_order with the resolved namespace as a parameter (the
source computes database = get_database_prefix(order_data) once and threads
it through every call).  Control flow of the
source's try/except: a falsy erp_customer_id raises ValueError (handler rolls
back, returns False); a customer-lookup miss returns False without rollback;
an existing order number returns True without writes; then the write
sequence, where any raised write error or the zero-detail RuntimeError of the
verifier reaches the handler (rollback, False); on success the notifier is
called and then the transaction is committed, returning True. -/
def sync_order_in (sched : List Nat) (env : Env) (o : OrderData) (ns : String)
    (c : Conn) : Bool × Conn :=
  if o.erpCustomerId == "" then (false, rollback c)
  else
    match env.customers ns o.erpCustomerNo with
    | none => (false, c)
    | some cust =>
      if order_exists o ns c then (true, c)
      else
        match insert_sheet_roots sched o cust ns c with
        | (none, c1) => (false, rollback c1)
        | (some rootId, c1) =>
          match insert_status_flow sched env o rootId ns c1 with
          | (none, c2) => (false, rollback c2)
          | (some flowId, c2) =>
            match update_sheet_root_status sched rootId flowId ns c2 with
            | (none, c3) => (false, rollback c3)
            | (some _, c3) =>
              match insert_sheet_order sched env rootId o cust ns c3 with
              | (none, c4) => (false, rollback c4)
              | (some _, c4) =>
                match insert_order_details sched env ns rootId o c4 with
                | (none, c5) => (false, rollback c5)
                | (some _, c5) =>
                  match save_mid_order sched o ns c5 with
                  | (none, c6) => (false, rollback c6)
                  | (some _, c6) =>
                    if order_details_exist rootId ns c6 then
                      (true, txcommit (notify_order_sync_success o c6))
                    else (false, rollback c6)

/-- sync_order: resolves the namespace once, then runs the per-order body. -/
def sync_order (sched : List Nat) (env : Env) (o : OrderData) (c : Conn) :
    Bool × Conn :=
  sync_order_in sched env o (get_database_pfx o) c

/-- The response dictionary of the upstream API as the engine reads it. -/
structure ApiResp where
  status : Int
  data : List OrderData

/-- Outcome of the underlying HTTP call: a decoded response, or a raised
requests exception. -/
inductive HttpOutcome where
  | ok : ApiResp → HttpOutcome
  | exn : String → HttpOutcome

/-- send_request: returns the decoded response; a requests exception is
caught and converted to a status-0 dictionary (which carries no data key). -/
def send_request (h : HttpOutcome) : ApiResp :=
  match h with
  | HttpOutcome.ok r => r
  | HttpOutcome.exn _ => { status := 0, data := [] }

/-- get_orders_from_yq: response.get('data', []) if status == 1 else []. -/
def get_orders_from_yq (h : HttpOutcome) : List OrderData :=
  let r := send_request h
  if r.status == 1 then r.data else []

/-- The per-order loop of sync_all_orders, threading the connection and the
success counter. -/
def syncLoop (sched : List Nat) (env : Env) :
    List OrderData → Conn → Nat → Nat × Conn
  | [], c, acc => (acc, c)
  | o :: rest, c, acc =>
    let r := sync_order sched env o c
    syncLoop sched env rest r.2 (if r.1 then acc + 1 else acc)

/-- sync_all_orders: pull the candidate orders, return 0 when there are none,
otherwise run sync_order on each in turn and count successes. -/
def sync_all_orders (sched : List Nat) (env : Env) (h : HttpOutcome)
    (c : Conn) : Nat × Conn :=
  let orders := get_orders_from_yq h
  if orders.isEmpty then (0, c)
  else syncLoop sched env orders c 0

/-- The sequence of per-order outcomes of the batch loop (bookkeeping
definition used to state the batch-count property). -/
def syncResults (sched : List Nat) (env : Env) :
    List OrderData → Conn → List Bool
  | [], _ => []
  | o :: rest, c =>
    let r := sync_order sched env o c
    r.1 :: syncResults sched env rest r.2

/-- Modelled from the spec: the claimed unreserved quantity
"on-hand minus in-transit-reserved minus already-reserved" with plain
subtraction (no clamping of negative components), for comparison with the
source's availQty. -/
def specUnreserved (b : StockRow) : ℚ :=
  b.qty.getD 0 - b.inTransit.getD 0 - b.concurrent.getD 0

/-- Modelled from the spec: the claimed profit-rate formula
round(profit / (price*qty), 2) * 100 where profit is the already-rounded
profit, for comparison with the source's get_item_profit. -/
def claimedProfitRate (price qty cost bookedQty : ℚ) : ℚ :=
  sqlRound2 (sqlRound2 (price * qty - (cost / bookedQty) * qty) / (price * qty)) * 100

/-- Is this event the outbound success notification? -/
def isNotify (e : Ev) : Bool :=
  match e with
  | Ev.notifyEv _ => true
  | _ => false

/-- Number of notification calls recorded in a trace. -/
def notifyCount (l : List Ev) : Nat := l.countP isNotify

/-- A trace fragment consisting of per-statement commits only. -/
def onlyStmt (l : List Ev) : Prop := ∀ e ∈ l, e = Ev.stmtCommit

/-- The claim that a trace notifies only after the transaction commit: no
notification event strictly precedes the first txCommit. -/
def notifyOnlyAfterTxCommit (l : List Ev) : Bool :=
  (l.takeWhile (fun e => !(e == Ev.txCommit))).countP isNotify == 0

/-- Two ledger rows agreeing on every column except the reservation counter
并发数量. -/
def concOnly (a b : StockRow) : Prop :=
  b.product = a.product ∧ b.batchTimes = a.batchTimes ∧ b.batchNo = a.batchNo ∧
  b.bz = a.bz ∧ b.qty = a.qty ∧ b.inTransit = a.inTransit ∧
  b.company = a.company ∧ b.btype = a.btype ∧ b.costAmount = a.costAmount ∧
  b.assessY = a.assessY

/-- The ledger evolved only in its reservation counters: same rows, each
changed at most in 并发数量. -/
def stockPres (xs ys : List StockRow) : Prop := List.Forall₂ concOnly xs ys

/-- stockPres on both physical databases. -/
def dbStockPres (d e : DB) : Prop :=
  stockPres d.herb.stock e.herb.stock ∧ stockPres d.std.stock e.std.stock

/-- A connection with no statements pending (entry state of each order in the
sequential batch: every exit path of sync_order commits or rolls back). -/
def Conn.clean (c : Conn) : Prop := c.committed = c.pending

/-- Modelled from the spec (claim C3's words): eligibility filtered by the
plain unreserved quantity on-hand − in-transit − already-reserved, without
the source's clamping of negative components. -/
def specEligibleBatches (t : Tables) (item : OrderGood) :
    List (SpecificRow × StockRow) :=
  (batchJoin t).filter fun x =>
    !(x.1.oid == "-1") &&
    (x.2.company.getD 1 == 1) &&
    (x.2.btype.getD 0 == 0) &&
    (x.1.oid == strip3 item.erpGoodsId) &&
    (item.erpStockId == "" ||
      (x.1.printBatchNo == item.selectedBatchCode &&
       x.1.sid == item.selectedBatchTimes)) &&
    decide (0 < specUnreserved x.2)

/-- Empty tables of one namespace. -/
def emptyTables : Tables :=
  { sheetRoots := [], statusFlows := [], sheetOrders := [], orderDetails := [],
    midOrders := [], specifics := [], stock := [] }

/-- Concrete customer used by the evaluation fixtures. -/
def exCust : Customer :=
  { cid := 77, defaultSalePrice := 3, exchangeType := 1, transportMode := 2,
    bookkeepMode := 1, addressId := 501, salesmanId := 31, billerId := 32,
    userId := 9001 }

/-- Concrete environment: customer C001 exists in the standard namespace,
every product has a 13 percent tax row. -/
def exEnv : Env :=
  { customers := fun ns no => if ns == nsStd && no == "C001" then some exCust else none
    taxInfo := fun _ _ => some { taxRate := 13/100, outTaxRate := 13/100 }
    systemUserId := 900, defaultDepartment := 55 }

/-- Lot of product 10001. -/
def exSpec1 : SpecificRow :=
  { oid := "10001", printBatchNo := "PH1", sid := 501, expiry := 3, prodDate := 1 }

/-- Ledger row of product 10001 with 100 on hand and nothing reserved. -/
def exStock1 : StockRow :=
  { product := "10001", batchTimes := 501, batchNo := "PH1", bz := 10,
    qty := some 100, inTransit := some 0, concurrent := some 0,
    company := some 1, btype := some 0, costAmount := 90, assessY := some 2 }

/-- Lot of product 10002. -/
def exSpec2 : SpecificRow :=
  { oid := "10002", printBatchNo := "PH2", sid := 502, expiry := 4, prodDate := 1 }

/-- Ledger row of product 10002 with 50 on hand and nothing reserved. -/
def exStock2 : StockRow :=
  { product := "10002", batchTimes := 502, batchNo := "PH2", bz := 5,
    qty := some 50, inTransit := some 0, concurrent := some 0,
    company := some 1, btype := some 0, costAmount := 40, assessY := some 1 }

/-- Standard-namespace tables holding the two lots and their ledger rows. -/
def exTables : Tables :=
  { sheetRoots := [], statusFlows := [], sheetOrders := [], orderDetails := [],
    midOrders := [], specifics := [exSpec1, exSpec2],
    stock := [exStock1, exStock2] }

/-- Fixture database: empty herbal side, stocked standard side. -/
def exDB : DB := { herb := emptyTables, std := exTables }

/-- Fixture connection: clean, empty trace. -/
def exConn : Conn :=
  { committed := exDB, pending := exDB, nextId := 1000, writeIdx := 0, events := [] }

/-- Line for product 10001: quantity 5 at price 20 (list price 25). -/
def exItem1 : OrderGood :=
  { erpGoodsId := "ABC10001", quantity := 5, priceRecords := ⟨20, 25, 0⟩,
    isGift := 0, promotions := [], erpStockId := "", selectedBatchCode := "",
    selectedBatchTimes := 0 }

/-- Line for product 10002: quantity 4 at price 8 (list price 9). -/
def exItem2 : OrderGood :=
  { erpGoodsId := "ABC10002", quantity := 4, priceRecords := ⟨8, 9, 0⟩,
    isGift := 0, promotions := [], erpStockId := "", selectedBatchCode := "",
    selectedBatchTimes := 0 }

/-- Two-line order SO1 from wechat, paid online, discount 50. -/
def exOrder2 : OrderData :=
  { id := 42, subOrderSn := "SO1", createdAt := "2025-01-01",
    erpCustomerId := "EC1", erpCustomerNo := "C001", payMethod := "线上支付",
    source := "wechat", message := "", orderDiscountTotal := 50,
    goodsTotalFee := 100, subOrderTotalFee := 0,
    orderGoods := [exItem1, exItem2], splitRules := [] }

/-- One-line order SO2. -/
def exOrder1 : OrderData :=
  { id := 41, subOrderSn := "SO2", createdAt := "2025-01-02",
    erpCustomerId := "EC1", erpCustomerNo := "C001", payMethod := "线上支付",
    source := "wechat", message := "", orderDiscountTotal := 0,
    goodsTotalFee := 100, subOrderTotalFee := 0,
    orderGoods := [exItem1], splitRules := [] }

/-- Standard tables with the lots but an empty ledger: every line of an order
has zero eligible batch quantity. -/
def noStockTables : Tables :=
  { sheetRoots := [], statusFlows := [], sheetOrders := [], orderDetails := [],
    midOrders := [], specifics := [exSpec1, exSpec2], stock := [] }

/-- Database for the all-lines-skipped scenario. -/
def noStockDB : DB := { herb := emptyTables, std := noStockTables }

/-- Connection for the all-lines-skipped scenario. -/
def noStockConn : Conn :=
  { committed := noStockDB, pending := noStockDB, nextId := 1000, writeIdx := 0,
    events := [] }

/-- An already-synced header row for order SO1. -/
def dupHeader : SheetOrder := headerRow exEnv 1 exOrder2 exCust

/-- Standard tables already containing order SO1's header row. -/
def dupTables : Tables := { exTables with sheetOrders := [dupHeader] }

/-- Database already containing order SO1. -/
def dupDB : DB := { herb := emptyTables, std := dupTables }

/-- Connection already containing order SO1. -/
def dupConn : Conn :=
  { committed := dupDB, pending := dupDB, nextId := 2000, writeIdx := 0,
    events := [] }

/-- Order SO1 resubmitted with a missing (falsy) erp_customer_id. -/
def dupOrderNoCust : OrderData := { exOrder2 with erpCustomerId := "" }

/-- Lot of product 30001 for the eligibility counterexample. -/
def spec3 : SpecificRow :=
  { oid := "30001", printBatchNo := "PH3", sid := 601, expiry := 1, prodDate := 1 }

/-- Ledger row with zero on hand and a NEGATIVE reservation counter (-3):
the claimed plain subtraction yields 0 − 0 − (−3) = 3 > 0, the source's
clamped formula yields 0. -/
def stock3 : StockRow :=
  { product := "30001", batchTimes := 601, batchNo := "PH3", bz := 6,
    qty := some 0, inTransit := some 0, concurrent := some (-3),
    company := some 1, btype := some 0, costAmount := 0, assessY := none }

/-- Line for product 30001 (no pre-selected batch hint). -/
def item3 : OrderGood :=
  { erpGoodsId := "XYZ30001", quantity := 1, priceRecords := ⟨1, 1, 0⟩,
    isGift := 0, promotions := [], erpStockId := "", selectedBatchCode := "",
    selectedBatchTimes := 0 }

/-- Tables for the eligibility counterexample. -/
def t3 : Tables :=
  { sheetRoots := [], statusFlows := [], sheetOrders := [], orderDetails := [],
    midOrders := [], specifics := [spec3], stock := [stock3] }

/-- Line for product 40001: quantity 10 at price 1. -/
def item4 : OrderGood :=
  { erpGoodsId := "ABC40001", quantity := 10, priceRecords := ⟨1, 1, 0⟩,
    isGift := 0, promotions := [], erpStockId := "", selectedBatchCode := "",
    selectedBatchTimes := 0 }

/-- Allocated batch PH4 used by the profit counterexample. -/
def batch4 : BatchInfo :=
  { batch_code := "PH4", batch_times := 701, bz := 10, concurrent := some 0,
    assessY := 0, qty := 5 }

/-- Ledger row for product 40001: booked cost 9954 over booked quantity
10000 (unit cost 0.9954). -/
def stock4 : StockRow :=
  { product := "40001", batchTimes := 701, batchNo := "PH4", bz := 10,
    qty := some 10000, inTransit := some 0, concurrent := some 0,
    company := some 1, btype := some 0, costAmount := 9954, assessY := none }

/-- Tables for the profit counterexample. -/
def t4 : Tables :=
  { sheetRoots := [], statusFlows := [], sheetOrders := [], orderDetails := [],
    midOrders := [], specifics := [], stock := [stock4] }

/-- Order paid cash on delivery whose free-text message itself begins with
the online-paid marker. -/
def c7order : OrderData :=
  { exOrder2 with payMethod := "货到付款", message := "线上已付款;改天配送" }

/-- Lot of product 60001 for the NULL-company counterexample. -/
def spec6 : SpecificRow :=
  { oid := "60001", printBatchNo := "PH6", sid := 801, expiry := 1, prodDate := 1 }

/-- Ledger row for product 60001 whose 公司机构 column is NULL: admitted by
the allocator's ISNULL(公司机构,1) = 1 filter, but never matched by the
reservation update's WHERE 公司机构 = 1. -/
def stock6 : StockRow :=
  { product := "60001", batchTimes := 801, batchNo := "PH6", bz := 10,
    qty := some 100, inTransit := some 0, concurrent := some 0,
    company := none, btype := some 0, costAmount := 90, assessY := none }

/-- Line for product 60001: quantity 5, no batch hint. -/
def item6 : OrderGood :=
  { erpGoodsId := "ABC60001", quantity := 5, priceRecords := ⟨20, 25, 0⟩,
    isGift := 0, promotions := [], erpStockId := "", selectedBatchCode := "",
    selectedBatchTimes := 0 }

/-- The allocation get_item_batch returns for that line. -/
def binfo6 : BatchInfo :=
  { batch_code := "PH6", batch_times := 801, bz := 10, concurrent := some 0,
    assessY := 0, qty := 100 }

/-- Tables for the NULL-company counterexample. -/
def t6 : Tables :=
  { sheetRoots := [], statusFlows := [], sheetOrders := [], orderDetails := [],
    midOrders := [], specifics := [spec6], stock := [stock6] }

/-- Connection for the NULL-company counterexample. -/
def conn6 : Conn :=
  { committed := { herb := emptyTables, std := t6 },
    pending := { herb := emptyTables, std := t6 },
    nextId := 1, writeIdx := 0, events := [] }

/-- Events of a connection evolve by appending statement commits only. -/
def evStep (c c' : Conn) : Prop :=
  ∃ l, c'.events = c.events ++ l ∧ onlyStmt l

/-- Stock preservation relative to the initial connection c0 (entered clean):
both the pending and the committed ledger are reachable from c0's pending
ledger by changing reservation counters only. -/
def presFrom (c0 c : Conn) : Prop :=
  dbStockPres c0.pending c.pending ∧ dbStockPres c0.pending c.committed

theorem DB.get_set_same (db : DB) (ns : String) (t : Tables) :
    (db.set ns t).get ns = t := by
  unfold DB.get DB.set
  split <;> simp_all

theorem execInsertReturningId_some {sched ns upd c i c'}
    (h : execInsertReturningId sched ns upd c = (some i, c')) :
    i = c.nextId ∧
    c' = { c with pending := c.pending.set ns (upd c.nextId (c.pending.get ns)),
                  nextId := c.nextId + 1, writeIdx := c.writeIdx + 1 } := by
  unfold execInsertReturningId at h
  split at h
  · simp_all
  · simp only [Prod.mk.injEq, Option.some.injEq] at h
    obtain ⟨h1, h2⟩ := h
    subst h1
    exact ⟨rfl, h2.symm⟩

theorem execInsertReturningId_none {sched ns upd c c'}
    (h : execInsertReturningId sched ns upd c = (none, c')) :
    c' = { c with writeIdx := c.writeIdx + 1 } := by
  unfold execInsertReturningId at h
  split at h <;> simp_all

theorem execNonQueryW_some {sched ns upd c u c'}
    (h : execNonQueryW sched ns upd c = (some u, c')) :
    c' = { c with pending := c.pending.set ns (upd (c.pending.get ns)),
                  committed := c.pending.set ns (upd (c.pending.get ns)),
                  writeIdx := c.writeIdx + 1,
                  events := c.events ++ [Ev.stmtCommit] } := by
  unfold execNonQueryW at h
  split at h <;> simp_all

theorem execNonQueryW_none {sched ns upd c c'}
    (h : execNonQueryW sched ns upd c = (none, c')) :
    c' = { c with writeIdx := c.writeIdx + 1 } := by
  unfold execNonQueryW at h
  split at h <;> simp_all

theorem onlyStmt_nil : onlyStmt [] := by
  intro e he
  cases he

theorem onlyStmt_append {l₁ l₂ : List Ev} (h₁ : onlyStmt l₁) (h₂ : onlyStmt l₂) :
    onlyStmt (l₁ ++ l₂) := by
  intro e he
  rcases List.mem_append.mp he with h | h
  · exact h₁ e h
  · exact h₂ e h

theorem onlyStmt_single : onlyStmt [Ev.stmtCommit] := by
  intro e he
  simpa using he

theorem notifyCount_append (l₁ l₂ : List Ev) :
    notifyCount (l₁ ++ l₂) = notifyCount l₁ + notifyCount l₂ :=
  List.countP_append _ _ _

theorem notifyCount_onlyStmt {l : List Ev} (h : onlyStmt l) : notifyCount l = 0 := by
  unfold notifyCount
  rw [List.countP_eq_zero]
  intro e he
  rw [h e he]
  simp [isNotify]

theorem evStep_refl (c : Conn) : evStep c c := ⟨[], by simp, onlyStmt_nil⟩

theorem evStep_trans {a b c : Conn} (h₁ : evStep a b) (h₂ : evStep b c) :
    evStep a c := by
  obtain ⟨l₁, e₁, s₁⟩ := h₁
  obtain ⟨l₂, e₂, s₂⟩ := h₂
  exact ⟨l₁ ++ l₂, by simp [e₂, e₁], onlyStmt_append s₁ s₂⟩

theorem concOnly_refl (a : StockRow) : concOnly a a := by
  unfold concOnly
  repeat exact ⟨rfl, by repeat constructor⟩

theorem concOnly_trans {a b c : StockRow} (h₁ : concOnly a b) (h₂ : concOnly b c) :
    concOnly a c := by
  unfold concOnly at *
  obtain ⟨p1, p2, p3, p4, p5, p6, p7, p8, p9, p10⟩ := h₁
  obtain ⟨q1, q2, q3, q4, q5, q6, q7, q8, q9, q10⟩ := h₂
  exact ⟨q1.trans p1, q2.trans p2, q3.trans p3, q4.trans p4, q5.trans p5,
         q6.trans p6, q7.trans p7, q8.trans p8, q9.trans p9, q10.trans p10⟩

theorem stockPres_refl (xs : List StockRow) : stockPres xs xs := by
  induction xs with
  | nil => exact List.Forall₂.nil
  | cons a t ih => exact List.Forall₂.cons (concOnly_refl a) ih

theorem stockPres_trans {xs ys zs : List StockRow}
    (h₁ : stockPres xs ys) (h₂ : stockPres ys zs) : stockPres xs zs := by
  induction h₁ generalizing zs with
  | nil => cases h₂; exact List.Forall₂.nil
  | cons hab htl ih =>
    cases h₂ with
    | cons hbc htl₂ => exact List.Forall₂.cons (concOnly_trans hab hbc) (ih htl₂)

theorem stockPres_map {xs : List StockRow} {f : StockRow → StockRow}
    (hf : ∀ b, concOnly b (f b)) : stockPres xs (xs.map f) := by
  induction xs with
  | nil => exact List.Forall₂.nil
  | cons a t ih => exact List.Forall₂.cons (hf a) ih

theorem dbStockPres_refl (d : DB) : dbStockPres d d :=
  ⟨stockPres_refl _, stockPres_refl _⟩

theorem dbStockPres_trans {d e f : DB} (h₁ : dbStockPres d e) (h₂ : dbStockPres e f) :
    dbStockPres d f :=
  ⟨stockPres_trans h₁.1 h₂.1, stockPres_trans h₁.2 h₂.2⟩

theorem dbStockPres_set {d e : DB} {ns : String} {t : Tables}
    (h : dbStockPres d e) (ht : stockPres (e.get ns).stock t.stock) :
    dbStockPres d (e.set ns t) := by
  unfold DB.get at ht
  unfold DB.set
  by_cases hns : ns = nsHerb
  · rw [if_pos hns] at ht ⊢
    exact ⟨stockPres_trans h.1 ht, h.2⟩
  · rw [if_neg hns] at ht ⊢
    exact ⟨h.1, stockPres_trans h.2 ht⟩

theorem evStep_execIns (sched : List Nat) (ns : String) (upd : Int → Tables → Tables)
    (c : Conn) : evStep c (execInsertReturningId sched ns upd c).2 := by
  unfold execInsertReturningId
  split
  · exact ⟨[], by simp, onlyStmt_nil⟩
  · exact ⟨[], by simp, onlyStmt_nil⟩

theorem evStep_execNQ (sched : List Nat) (ns : String) (upd : Tables → Tables)
    (c : Conn) : evStep c (execNonQueryW sched ns upd c).2 := by
  unfold execNonQueryW
  split
  · exact ⟨[], by simp, onlyStmt_nil⟩
  · exact ⟨[Ev.stmtCommit], by simp, onlyStmt_single⟩

theorem hdrs_set (db : DB) (ns : String) (t : Tables) (ns2 : String)
    (h : t.sheetOrders = (db.get ns).sheetOrders) :
    ((db.set ns t).get ns2).sheetOrders = (db.get ns2).sheetOrders := by
  unfold DB.get DB.set at *
  by_cases h1 : ns = nsHerb <;> by_cases h2 : ns2 = nsHerb <;> simp_all

theorem presFrom_execNQ {c0 : Conn} {sched : List Nat} {ns : String}
    {upd : Tables → Tables} {c : Conn}
    (hstock : ∀ t : Tables, stockPres t.stock (upd t).stock)
    (h : presFrom c0 c) : presFrom c0 (execNonQueryW sched ns upd c).2 := by
  unfold execNonQueryW
  split
  · exact h
  · refine ⟨?_, ?_⟩ <;>
      exact dbStockPres_set h.1 (hstock (c.pending.get ns))

theorem presFrom_execIns {c0 : Conn} {sched : List Nat} {ns : String}
    {upd : Int → Tables → Tables} {c : Conn}
    (hstock : ∀ (i : Int) (t : Tables), stockPres t.stock (upd i t).stock)
    (h : presFrom c0 c) : presFrom c0 (execInsertReturningId sched ns upd c).2 := by
  unfold execInsertReturningId
  split
  · exact h
  · exact ⟨dbStockPres_set h.1 (hstock c.nextId (c.pending.get ns)), h.2⟩

theorem presFrom_rollback {c0 c : Conn} (h : presFrom c0 c) :
    presFrom c0 (rollback c) := ⟨h.2, h.2⟩

theorem presFrom_txcommit {c0 c : Conn} (h : presFrom c0 c) :
    presFrom c0 (txcommit c) := ⟨h.1, h.1⟩

theorem presFrom_notify {c0 c : Conn} {o : OrderData} (h : presFrom c0 c) :
    presFrom c0 (notify_order_sync_success o c) := h

theorem evStep_execNQ' {sched : List Nat} {ns : String} {upd : Tables → Tables}
    {c : Conn} {r : Option Unit} {c' : Conn}
    (h : execNonQueryW sched ns upd c = (r, c')) : evStep c c' := by
  have := evStep_execNQ sched ns upd c
  rwa [h] at this

theorem evStep_execIns' {sched : List Nat} {ns : String}
    {upd : Int → Tables → Tables} {c : Conn} {r : Option Int} {c' : Conn}
    (h : execInsertReturningId sched ns upd c = (r, c')) : evStep c c' := by
  have := evStep_execIns sched ns upd c
  rwa [h] at this

theorem loop_evStep (sched : List Nat) (env : Env) (ns : String) (rootId : Int) :
    ∀ (goods : List OrderGood) (idx : Int) (c : Conn),
      evStep c (insertDetailsLoop sched env ns rootId goods idx c).2 := by
  intro goods
  induction goods with
  | nil => intro idx c; exact evStep_refl c
  | cons item rest ih =>
    intro idx c
    unfold insertDetailsLoop
    cases hb : get_item_batch (c.pending.get ns) item with
    | none => exact ih (idx + 1) c
    | some batch =>
      simp only []
      rcases h1 : execNonQueryW sched ns
          (fun t => { t with orderDetails := t.orderDetails ++
            [detailRow rootId idx item batch (get_item_tax_info env ns item)
              (get_item_profit (c.pending.get ns) item batch)
              (build_item_remark item)] }) c with ⟨r1, c1⟩
      have e1 : evStep c c1 := evStep_execNQ' h1
      cases r1 with
      | none => simpa [h1] using e1
      | some u =>
        simp only [h1]
        rcases h2 : update_stock_concurrency sched item batch ns c1 with ⟨r2, c2⟩
        have e2 : evStep c1 c2 := by
          unfold update_stock_concurrency at h2
          exact evStep_execNQ' h2
        cases r2 with
        | none => simpa using evStep_trans e1 e2
        | some u2 =>
          exact evStep_trans e1 (evStep_trans e2 (ih (idx + 1) c2))

theorem hdrs_execNQ' {sched : List Nat} {ns : String} {upd : Tables → Tables}
    {c : Conn} {r : Option Unit} {c' : Conn}
    (h : execNonQueryW sched ns upd c = (r, c'))
    (hupd : ∀ t, (upd t).sheetOrders = t.sheetOrders) (ns2 : String) :
    (c'.pending.get ns2).sheetOrders = (c.pending.get ns2).sheetOrders := by
  cases r with
  | none => rw [execNonQueryW_none h]
  | some u => rw [execNonQueryW_some h]; exact hdrs_set _ _ _ _ (hupd _)

theorem hdrs_execIns' {sched : List Nat} {ns : String}
    {upd : Int → Tables → Tables} {c : Conn} {r : Option Int} {c' : Conn}
    (h : execInsertReturningId sched ns upd c = (r, c'))
    (hupd : ∀ i t, (upd i t).sheetOrders = t.sheetOrders) (ns2 : String) :
    (c'.pending.get ns2).sheetOrders = (c.pending.get ns2).sheetOrders := by
  cases r with
  | none => rw [execInsertReturningId_none h]
  | some i => rw [(execInsertReturningId_some h).2]; exact hdrs_set _ _ _ _ (hupd _ _)

theorem presFrom_execNQ' {c0 : Conn} {sched : List Nat} {ns : String}
    {upd : Tables → Tables} {c : Conn} {r : Option Unit} {c' : Conn}
    (h : execNonQueryW sched ns upd c = (r, c'))
    (hstock : ∀ t : Tables, stockPres t.stock (upd t).stock)
    (hp : presFrom c0 c) : presFrom c0 c' := by
  have := @presFrom_execNQ c0 sched ns upd c hstock hp
  rwa [h] at this

theorem presFrom_execIns' {c0 : Conn} {sched : List Nat} {ns : String}
    {upd : Int → Tables → Tables} {c : Conn} {r : Option Int} {c' : Conn}
    (h : execInsertReturningId sched ns upd c = (r, c'))
    (hstock : ∀ (i : Int) (t : Tables), stockPres t.stock (upd i t).stock)
    (hp : presFrom c0 c) : presFrom c0 c' := by
  have := @presFrom_execIns c0 sched ns upd c hstock hp
  rwa [h] at this

theorem loop_hdrs (sched : List Nat) (env : Env) (ns : String) (rootId : Int) :
    ∀ (goods : List OrderGood) (idx : Int) (c : Conn) (ns2 : String),
      (((insertDetailsLoop sched env ns rootId goods idx c).2).pending.get ns2).sheetOrders =
        ((c.pending.get ns2)).sheetOrders := by
  intro goods
  induction goods with
  | nil => intro idx c ns2; rfl
  | cons item rest ih =>
    intro idx c ns2
    unfold insertDetailsLoop
    cases hb : get_item_batch (c.pending.get ns) item with
    | none => exact ih (idx + 1) c ns2
    | some batch =>
      simp only []
      rcases h1 : execNonQueryW sched ns
          (fun t => { t with orderDetails := t.orderDetails ++
            [detailRow rootId idx item batch (get_item_tax_info env ns item)
              (get_item_profit (c.pending.get ns) item batch)
              (build_item_remark item)] }) c with ⟨r1, c1⟩
      have e1 := hdrs_execNQ' h1 (fun t => rfl) ns2
      cases r1 with
      | none => simpa using e1
      | some u =>
        simp only []
        rcases h2 : update_stock_concurrency sched item batch ns c1 with ⟨r2, c2⟩
        have e2 : (c2.pending.get ns2).sheetOrders = (c1.pending.get ns2).sheetOrders := by
          unfold update_stock_concurrency at h2
          exact hdrs_execNQ' h2 (fun t => rfl) ns2
        cases r2 with
        | none => simpa using e2.trans e1
        | some u2 => exact (ih (idx + 1) c2 ns2).trans (e2.trans e1)

theorem loop_presFrom {c0 : Conn} (sched : List Nat) (env : Env) (ns : String)
    (rootId : Int) :
    ∀ (goods : List OrderGood) (idx : Int) (c : Conn),
      presFrom c0 c →
      presFrom c0 (insertDetailsLoop sched env ns rootId goods idx c).2 := by
  intro goods
  induction goods with
  | nil => intro idx c hp; exact hp
  | cons item rest ih =>
    intro idx c hp
    unfold insertDetailsLoop
    cases hb : get_item_batch (c.pending.get ns) item with
    | none => exact ih (idx + 1) c hp
    | some batch =>
      simp only []
      rcases h1 : execNonQueryW sched ns
          (fun t => { t with orderDetails := t.orderDetails ++
            [detailRow rootId idx item batch (get_item_tax_info env ns item)
              (get_item_profit (c.pending.get ns) item batch)
              (build_item_remark item)] }) c with ⟨r1, c1⟩
      have e1 : presFrom c0 c1 := presFrom_execNQ' h1 (fun t => stockPres_refl _) hp
      cases r1 with
      | none => simpa using e1
      | some u =>
        simp only []
        rcases h2 : update_stock_concurrency sched item batch ns c1 with ⟨r2, c2⟩
        have e2 : presFrom c0 c2 := by
          unfold update_stock_concurrency at h2
          refine presFrom_execNQ' h2 (fun t => stockPres_map ?_) e1
          intro b
          unfold stockUpdRow
          split
          · exact ⟨rfl, rfl, rfl, rfl, rfl, rfl, rfl, rfl, rfl, rfl⟩
          · exact concOnly_refl b
        cases r2 with
        | none => simpa using e2
        | some u2 => exact ih (idx + 1) c2 e2

theorem sync_order_in_dup_noop {sched : List Nat} {env : Env} {o : OrderData}
    {ns : String} {c : Conn} {cust : Customer}
    (hid : o.erpCustomerId ≠ "")
    (hcust : env.customers ns o.erpCustomerNo = some cust)
    (hdup : order_exists o ns c = true) :
    sync_order_in sched env o ns c = (true, c) := by
  unfold sync_order_in
  rw [if_neg (by simpa using hid), hcust]
  simp only [hdup, if_true]

theorem sync_order_in_presFrom (sched : List Nat) (env : Env) (o : OrderData)
    (ns : String) (c : Conn) (hc : c.clean) :
    presFrom c (sync_order_in sched env o ns c).2 := by
  have hp0 : presFrom c c := ⟨dbStockPres_refl _, hc ▸ dbStockPres_refl _⟩
  unfold sync_order_in
  split
  · exact presFrom_rollback hp0
  · rcases hcu : env.customers ns o.erpCustomerNo with _ | cust
    · exact hp0
    · simp only []
      split
      · exact hp0
      · rcases h1 : insert_sheet_roots sched o cust ns c with ⟨r1, c1⟩
        have p1 : presFrom c c1 := by
          unfold insert_sheet_roots at h1
          exact presFrom_execIns' h1 (fun i t => stockPres_refl _) hp0
        cases r1 with
        | none => exact presFrom_rollback p1
        | some rootId =>
          simp only []
          rcases h2 : insert_status_flow sched env o rootId ns c1 with ⟨r2, c2⟩
          have p2 : presFrom c c2 := by
            unfold insert_status_flow at h2
            exact presFrom_execIns' h2 (fun i t => stockPres_refl _) p1
          cases r2 with
          | none => exact presFrom_rollback p2
          | some flowId =>
            simp only []
            rcases h3 : update_sheet_root_status sched rootId flowId ns c2 with ⟨r3, c3⟩
            have p3 : presFrom c c3 := by
              unfold update_sheet_root_status at h3
              exact presFrom_execNQ' h3 (fun t => stockPres_refl _) p2
            cases r3 with
            | none => exact presFrom_rollback p3
            | some u3 =>
              simp only []
              rcases h4 : insert_sheet_order sched env rootId o cust ns c3 with ⟨r4, c4⟩
              have p4 : presFrom c c4 := by
                unfold insert_sheet_order at h4
                exact presFrom_execNQ' h4 (fun t => stockPres_refl _) p3
              cases r4 with
              | none => exact presFrom_rollback p4
              | some u4 =>
                simp only []
                rcases h5 : insert_order_details sched env ns rootId o c4 with ⟨r5, c5⟩
                have p5 : presFrom c c5 := by
                  unfold insert_order_details at h5
                  have := loop_presFrom sched env ns rootId o.orderGoods 1 c4 p4
                  rwa [h5] at this
                cases r5 with
                | none => exact presFrom_rollback p5
                | some u5 =>
                  simp only []
                  rcases h6 : save_mid_order sched o ns c5 with ⟨r6, c6⟩
                  have p6 : presFrom c c6 := by
                    unfold save_mid_order at h6
                    exact presFrom_execNQ' h6 (fun t => stockPres_refl _) p5
                  cases r6 with
                  | none => exact presFrom_rollback p6
                  | some u6 =>
                    simp only []
                    split
                    · exact presFrom_txcommit (presFrom_notify p6)
                    · exact presFrom_rollback p6

theorem sync_order_in_trace (sched : List Nat) (env : Env) (o : OrderData)
    (ns : String) (c : Conn) :
    ∃ l, onlyStmt l ∧
      (((sync_order_in sched env o ns c).1 = false ∧
        ((sync_order_in sched env o ns c).2.events = c.events ++ l ∨
         (sync_order_in sched env o ns c).2.events = c.events ++ l ++ [Ev.rollbackEv])) ∨
       ((sync_order_in sched env o ns c).1 = true ∧
        ((sync_order_in sched env o ns c).2.events = c.events ++ l ∨
         (sync_order_in sched env o ns c).2.events =
           c.events ++ l ++ [Ev.notifyEv o.id, Ev.txCommit]))) := by
  unfold sync_order_in
  split
  · exact ⟨[], onlyStmt_nil, Or.inl ⟨rfl, Or.inr (by simp [rollback])⟩⟩
  · rcases hcu : env.customers ns o.erpCustomerNo with _ | cust
    · exact ⟨[], onlyStmt_nil, Or.inl ⟨rfl, Or.inl (by simp)⟩⟩
    · simp only []
      split
      · exact ⟨[], onlyStmt_nil, Or.inr ⟨rfl, Or.inl (by simp)⟩⟩
      · rcases h1 : insert_sheet_roots sched o cust ns c with ⟨r1, c1⟩
        have s1 : evStep c c1 := by
          unfold insert_sheet_roots at h1
          exact evStep_execIns' h1
        cases r1 with
        | none =>
          obtain ⟨l, hl, sl⟩ := s1
          exact ⟨l, sl, Or.inl ⟨rfl, Or.inr (by simp [rollback, hl])⟩⟩
        | some rootId =>
          simp only []
          rcases h2 : insert_status_flow sched env o rootId ns c1 with ⟨r2, c2⟩
          have s2 : evStep c c2 := by
            unfold insert_status_flow at h2
            exact evStep_trans s1 (evStep_execIns' h2)
          cases r2 with
          | none =>
            obtain ⟨l, hl, sl⟩ := s2
            exact ⟨l, sl, Or.inl ⟨rfl, Or.inr (by simp [rollback, hl])⟩⟩
          | some flowId =>
            simp only []
            rcases h3 : update_sheet_root_status sched rootId flowId ns c2 with ⟨r3, c3⟩
            have s3 : evStep c c3 := by
              unfold update_sheet_root_status at h3
              exact evStep_trans s2 (evStep_execNQ' h3)
            cases r3 with
            | none =>
              obtain ⟨l, hl, sl⟩ := s3
              exact ⟨l, sl, Or.inl ⟨rfl, Or.inr (by simp [rollback, hl])⟩⟩
            | some u3 =>
              simp only []
              rcases h4 : insert_sheet_order sched env rootId o cust ns c3 with ⟨r4, c4⟩
              have s4 : evStep c c4 := by
                unfold insert_sheet_order at h4
                exact evStep_trans s3 (evStep_execNQ' h4)
              cases r4 with
              | none =>
                obtain ⟨l, hl, sl⟩ := s4
                exact ⟨l, sl, Or.inl ⟨rfl, Or.inr (by simp [rollback, hl])⟩⟩
              | some u4 =>
                simp only []
                rcases h5 : insert_order_details sched env ns rootId o c4 with ⟨r5, c5⟩
                have s5 : evStep c c5 := by
                  unfold insert_order_details at h5
                  have := loop_evStep sched env ns rootId o.orderGoods 1 c4
                  rw [h5] at this
                  exact evStep_trans s4 this
                cases r5 with
                | none =>
                  obtain ⟨l, hl, sl⟩ := s5
                  exact ⟨l, sl, Or.inl ⟨rfl, Or.inr (by simp [rollback, hl])⟩⟩
                | some u5 =>
                  simp only []
                  rcases h6 : save_mid_order sched o ns c5 with ⟨r6, c6⟩
                  have s6 : evStep c c6 := by
                    unfold save_mid_order at h6
                    exact evStep_trans s5 (evStep_execNQ' h6)
                  cases r6 with
                  | none =>
                    obtain ⟨l, hl, sl⟩ := s6
                    exact ⟨l, sl, Or.inl ⟨rfl, Or.inr (by simp [rollback, hl])⟩⟩
                  | some u6 =>
                    simp only []
                    obtain ⟨l, hl, sl⟩ := s6
                    split
                    · refine ⟨l, sl, Or.inr ⟨rfl, Or.inr ?_⟩⟩
                      simp [txcommit, notify_order_sync_success, hl]
                    · exact ⟨l, sl, Or.inl ⟨rfl, Or.inr (by simp [rollback, hl])⟩⟩

theorem sync_order_in_success_char {sched : List Nat} {env : Env} {o : OrderData}
    {ns : String} {c : Conn} {c' : Conn}
    (hfresh : order_exists o ns c = false)
    (h : sync_order_in sched env o ns c = (true, c')) :
    ∃ cust l,
      env.customers ns o.erpCustomerNo = some cust ∧
      o.erpCustomerId ≠ "" ∧
      c'.committed = c'.pending ∧
      (c'.pending.get ns).sheetOrders =
        (c.pending.get ns).sheetOrders ++ [headerRow env c.nextId o cust] ∧
      onlyStmt l ∧
      c'.events = c.events ++ l ++ [Ev.notifyEv o.id, Ev.txCommit] := by
  unfold sync_order_in at h
  split at h
  · simp at h
  · rename_i hnid
    have hid : o.erpCustomerId ≠ "" := by simpa using hnid
    split at h
    · simp at h
    · rename_i cust hcu
      split at h
      · rename_i hdup
        rw [hfresh] at hdup
        cases hdup
      · rcases h1 : insert_sheet_roots sched o cust ns c with ⟨r1, c1⟩
        rw [h1] at h
        have s1 : evStep c c1 := by
          unfold insert_sheet_roots at h1
          exact evStep_execIns' h1
        cases r1 with
        | none => simp at h
        | some rootId =>
          simp only [] at h
          unfold insert_sheet_roots at h1
          obtain ⟨hrid, hc1⟩ := execInsertReturningId_some h1
          have hd1 : (c1.pending.get ns).sheetOrders = (c.pending.get ns).sheetOrders := by
            rw [hc1]
            exact hdrs_set _ _ _ _ rfl
          rcases h2 : insert_status_flow sched env o rootId ns c1 with ⟨r2, c2⟩
          rw [h2] at h
          have s2 : evStep c c2 := by
            unfold insert_status_flow at h2
            exact evStep_trans s1 (evStep_execIns' h2)
          cases r2 with
          | none => simp at h
          | some flowId =>
            simp only [] at h
            have hd2 : (c2.pending.get ns).sheetOrders = (c1.pending.get ns).sheetOrders := by
              unfold insert_status_flow at h2
              exact hdrs_execIns' h2 (fun i t => rfl) ns
            rcases h3 : update_sheet_root_status sched rootId flowId ns c2 with ⟨r3, c3⟩
            rw [h3] at h
            have s3 : evStep c c3 := by
              unfold update_sheet_root_status at h3
              exact evStep_trans s2 (evStep_execNQ' h3)
            cases r3 with
            | none => simp at h
            | some u3 =>
              simp only [] at h
              have hd3 : (c3.pending.get ns).sheetOrders = (c2.pending.get ns).sheetOrders := by
                unfold update_sheet_root_status at h3
                refine hdrs_execNQ' h3 (fun t => ?_) ns
                simp
              rcases h4 : insert_sheet_order sched env rootId o cust ns c3 with ⟨r4, c4⟩
              rw [h4] at h
              have s4 : evStep c c4 := by
                unfold insert_sheet_order at h4
                exact evStep_trans s3 (evStep_execNQ' h4)
              cases r4 with
              | none => simp at h
              | some u4 =>
                simp only [] at h
                unfold insert_sheet_order at h4
                have hc4 := execNonQueryW_some h4
                have hd4 : (c4.pending.get ns).sheetOrders =
                    (c3.pending.get ns).sheetOrders ++ [headerRow env rootId o cust] := by
                  rw [hc4]
                  simp only []
                  rw [DB.get_set_same]
                rcases h5 : insert_order_details sched env ns rootId o c4 with ⟨r5, c5⟩
                rw [h5] at h
                have s5 : evStep c c5 := by
                  unfold insert_order_details at h5
                  have := loop_evStep sched env ns rootId o.orderGoods 1 c4
                  rw [h5] at this
                  exact evStep_trans s4 this
                cases r5 with
                | none => simp at h
                | some u5 =>
                  simp only [] at h
                  have hd5 : (c5.pending.get ns).sheetOrders =
                      (c4.pending.get ns).sheetOrders := by
                    unfold insert_order_details at h5
                    have := loop_hdrs sched env ns rootId o.orderGoods 1 c4 ns
                    rw [h5] at this
                    exact this
                  rcases h6 : save_mid_order sched o ns c5 with ⟨r6, c6⟩
                  rw [h6] at h
                  have s6 : evStep c c6 := by
                    unfold save_mid_order at h6
                    exact evStep_trans s5 (evStep_execNQ' h6)
                  cases r6 with
                  | none => simp at h
                  | some u6 =>
                    simp only [] at h
                    have hd6 : (c6.pending.get ns).sheetOrders =
                        (c5.pending.get ns).sheetOrders := by
                      unfold save_mid_order at h6
                      exact hdrs_execNQ' h6 (fun t => rfl) ns
                    split at h
                    · simp only [Prod.mk.injEq, true_and] at h
                      obtain ⟨l, hl, sl⟩ := s6
                      refine ⟨cust, l, hcu, hid, ?_, ?_, sl, ?_⟩
                      · rw [← h]
                        rfl
                      · rw [← h]
                        show (c6.pending.get ns).sheetOrders = _
                        rw [hd6, hd5, hd4, hd3, hd2, hd1, hrid]
                      · rw [← h]
                        show c6.events ++ [Ev.notifyEv o.id] ++ [Ev.txCommit] = _
                        rw [hl]
                        simp
                    · simp at h

theorem sync_order_in_dup_events {sched : List Nat} {env : Env} {o : OrderData}
    {ns : String} {c : Conn} (hdup : order_exists o ns c = true) :
    (sync_order_in sched env o ns c).2.events = c.events ∨
    (sync_order_in sched env o ns c).2.events = c.events ++ [Ev.rollbackEv] := by
  unfold sync_order_in
  split
  · right
    simp [rollback]
  · split
    · left
      rfl
    · left
      rfl

theorem syncLoop_count (sched : List Nat) (env : Env) :
    ∀ (orders : List OrderData) (c : Conn) (acc : Nat),
      (syncLoop sched env orders c acc).1 =
        acc + ((syncResults sched env orders c).filter id).length := by
  intro orders
  induction orders with
  | nil => intro c acc; simp [syncLoop, syncResults]
  | cons o rest ih =>
    intro c acc
    unfold syncLoop syncResults
    rcases hr : sync_order sched env o c with ⟨b, c'⟩
    simp only []
    cases b
    · simpa using ih c' acc
    · have hacc : (if true = true then acc + 1 else acc) = acc + 1 := rfl
      rw [hacc, ih c' (acc + 1)]
      simp only [List.filter_cons, id, if_true, List.length_cons]
      omega

theorem syncResults_length (sched : List Nat) (env : Env) :
    ∀ (orders : List OrderData) (c : Conn),
      (syncResults sched env orders c).length = orders.length := by
  intro orders
  induction orders with
  | nil => intro c; rfl
  | cons o rest ih =>
    intro c
    unfold syncResults
    rcases hr : sync_order sched env o c with ⟨b, c'⟩
    simpa using ih c'

/-- C9: namespace resolution is a pure function of the split rules: the
herbal marker is returned exactly when some rule with rule_no 4 has value
中药饮片, and otherwise the standard marker is returned. -/
theorem c9_namespace_resolution (o : OrderData) :
    (get_database_pfx o = nsHerb ↔
      ∃ r ∈ o.splitRules, r.ruleNo = some 4 ∧ r.value = some "中药饮片") ∧
    (get_database_pfx o = nsHerb ∨ get_database_pfx o = nsStd) := by
  have hne : nsStd ≠ nsHerb := by decide
  unfold get_database_pfx
  split
  · rename_i hny
    simp only [List.any_eq_true, Bool.and_eq_true, beq_iff_eq] at hny
    exact ⟨⟨fun _ => hny, fun _ => rfl⟩, Or.inl rfl⟩
  · rename_i hny
    simp only [List.any_eq_true, Bool.and_eq_true, beq_iff_eq] at hny
    exact ⟨⟨fun hh => absurd hh hne, fun hex => absurd hex hny⟩, Or.inr rfl⟩

/-- C10: if the HTTP pull raises a requests exception (converted to a
status-0 result) or the response status is not 1, the order fetch is the
empty list and the batch sync returns 0 (the embedding is total, so no
exception escapes). -/
theorem c10_fetch_failure (sched : List Nat) (env : Env) (h : HttpOutcome)
    (c : Conn)
    (hbad : (∃ msg, h = HttpOutcome.exn msg) ∨ (send_request h).status ≠ 1) :
    get_orders_from_yq h = [] ∧ (sync_all_orders sched env h c).1 = 0 := by
  have horders : get_orders_from_yq h = [] := by
    rcases hbad with ⟨msg, rfl⟩ | hst
    · rfl
    · simp [get_orders_from_yq, hst]
  refine ⟨horders, ?_⟩
  unfold sync_all_orders
  rw [horders]
  simp

/-- C10 witness: a concrete raised request exception yields no orders and a
zero batch count. -/
theorem c10_fetch_failure_w :
    get_orders_from_yq (HttpOutcome.exn "timeout") = [] ∧
    (sync_all_orders [] exEnv (HttpOutcome.exn "timeout") exConn).1 = 0 :=
  c10_fetch_failure [] exEnv (HttpOutcome.exn "timeout") exConn
    (Or.inl ⟨"timeout", rfl⟩)

/-- C8: sync_all_orders runs sync_order on every pulled order in turn and
returns exactly the number of successes; the embedding of sync_order is a
total function (every exception path is caught inside it), so no per-order
failure aborts the batch — the result sequence covers every order. -/
theorem c8_batch_count (sched : List Nat) (env : Env) (h : HttpOutcome) (c : Conn) :
    (sync_all_orders sched env h c).1 =
      ((syncResults sched env (get_orders_from_yq h) c).filter id).length ∧
    (syncResults sched env (get_orders_from_yq h) c).length =
      (get_orders_from_yq h).length := by
  refine ⟨?_, syncResults_length sched env _ c⟩
  have hrw : sync_all_orders sched env h c =
      if (get_orders_from_yq h).isEmpty then (0, c)
      else syncLoop sched env (get_orders_from_yq h) c 0 := rfl
  rw [hrw]
  split
  · rename_i hemp
    rw [List.isEmpty_iff] at hemp
    rw [hemp]
    rfl
  · rw [syncLoop_count]
    simp

theorem keyLtB_iff (a b : Nat × Nat × ℚ) :
    keyLtB a b = true ↔
      a.1 < b.1 ∨ (a.1 = b.1 ∧ (a.2.1 < b.2.1 ∨ (a.2.1 = b.2.1 ∧ a.2.2 < b.2.2))) := by
  simp [keyLtB, Bool.or_eq_true, Bool.and_eq_true, decide_eq_true_eq, beq_iff_eq]

theorem keyLtB_irrefl (a : Nat × Nat × ℚ) : keyLtB a a = false := by
  simp [keyLtB]

theorem keyLtB_trans {a b c : Nat × Nat × ℚ}
    (h₁ : keyLtB a b = true) (h₂ : keyLtB b c = true) : keyLtB a c = true := by
  rw [keyLtB_iff] at h₁ h₂ ⊢
  rcases h₁ with h₁ | ⟨e₁, h₁⟩
  · rcases h₂ with h₂ | ⟨e₂, h₂⟩
    · exact Or.inl (h₁.trans h₂)
    · exact Or.inl (e₂ ▸ h₁)
  · rcases h₂ with h₂ | ⟨e₂, h₂⟩
    · exact Or.inl (e₁ ▸ h₂)
    · refine Or.inr ⟨e₁.trans e₂, ?_⟩
      rcases h₁ with h₁ | ⟨f₁, h₁⟩
      · rcases h₂ with h₂ | ⟨f₂, h₂⟩
        · exact Or.inl (h₁.trans h₂)
        · exact Or.inl (f₂ ▸ h₁)
      · rcases h₂ with h₂ | ⟨f₂, h₂⟩
        · exact Or.inl (f₁ ▸ h₂)
        · exact Or.inr ⟨f₁.trans f₂, h₁.trans h₂⟩

theorem keyLtB_neg_neg {a b c : Nat × Nat × ℚ}
    (h₁ : keyLtB a b = false) (h₂ : keyLtB b c = false) : keyLtB a c = false := by
  rw [← Bool.not_eq_true] at h₁ h₂ ⊢
  rw [keyLtB_iff] at h₁ h₂ ⊢
  push_neg at h₁ h₂ ⊢
  obtain ⟨hb1, hb2⟩ := h₁
  obtain ⟨hc1, hc2⟩ := h₂
  refine ⟨le_trans hc1 hb1, ?_⟩
  intro hac
  have hb : a.1 = b.1 := by omega
  have hc : b.1 = c.1 := by omega
  obtain ⟨p1, p2⟩ := hb2 hb
  obtain ⟨q1, q2⟩ := hc2 hc
  refine ⟨le_trans q1 p1, ?_⟩
  intro hac2
  have hx : a.2.1 = b.2.1 := le_antisymm (hac2 ▸ q1) p1
  have hy : b.2.1 = c.2.1 := by omega
  exact le_trans (q2 hy) (p2 hx)

theorem pickMinBy_spec {α : Type} (key : α → Nat × Nat × ℚ) :
    ∀ (l : List α) (acc : Option α) (x : α),
      l.foldl
        (fun acc x =>
          match acc with
          | none => some x
          | some m => if keyLtB (key x) (key m) then some x else some m)
        acc = some x →
      ((acc = some x ∨ x ∈ l) ∧
       (∀ y ∈ l, keyLtB (key y) (key x) = false) ∧
       (∀ m, acc = some m → keyLtB (key m) (key x) = false)) := by
  intro l
  induction l with
  | nil =>
    intro acc x h
    simp only [List.foldl_nil] at h
    refine ⟨Or.inl h, by simp, ?_⟩
    intro m hm
    rw [hm, Option.some.injEq] at h
    rw [h]
    exact keyLtB_irrefl _
  | cons a t ih =>
    intro acc x h
    simp only [List.foldl_cons] at h
    obtain ⟨hmem, hmin, hacc⟩ := ih _ x h
    cases acc with
    | none =>
      have hax : keyLtB (key a) (key x) = false := hacc a rfl
      refine ⟨?_, ?_, ?_⟩
      · rcases hmem with hm | hm
        · rw [Option.some.injEq] at hm
          exact Or.inr (hm ▸ List.mem_cons_self a t)
        · exact Or.inr (List.mem_cons_of_mem a hm)
      · intro y hy
        rcases List.mem_cons.mp hy with hya | hyt
        · exact hya ▸ hax
        · exact hmin y hyt
      · intro m hm
        cases hm
    | some m₀ =>
      simp only [] at hmem hacc
      by_cases hlt : keyLtB (key a) (key m₀) = true
      · rw [if_pos hlt] at hmem hacc
        have hax : keyLtB (key a) (key x) = false := hacc a rfl
        refine ⟨?_, ?_, ?_⟩
        · rcases hmem with hm | hm
          · rw [Option.some.injEq] at hm
            exact Or.inr (hm ▸ List.mem_cons_self a t)
          · exact Or.inr (List.mem_cons_of_mem a hm)
        · intro y hy
          rcases List.mem_cons.mp hy with hya | hyt
          · exact hya ▸ hax
          · exact hmin y hyt
        · intro m hm
          rw [Option.some.injEq] at hm
          subst hm
          rw [Bool.eq_false_iff]
          intro hmx
          have := keyLtB_trans hlt hmx
          rw [hax] at this
          cases this
      · rw [Bool.not_eq_true] at hlt
        rw [if_neg (by rw [hlt]; exact Bool.false_ne_true)] at hmem hacc
        have hm0x : keyLtB (key m₀) (key x) = false := hacc m₀ rfl
        have hax : keyLtB (key a) (key x) = false := keyLtB_neg_neg hlt hm0x
        refine ⟨?_, ?_, ?_⟩
        · rcases hmem with hm | hm
          · exact Or.inl hm
          · exact Or.inr (List.mem_cons_of_mem a hm)
        · intro y hy
          rcases List.mem_cons.mp hy with hya | hyt
          · exact hya ▸ hax
          · exact hmin y hyt
        · intro m hm
          rw [Option.some.injEq] at hm
          exact hm ▸ hm0x

theorem pickAux_some {α : Type} (key : α → Nat × Nat × ℚ) :
    ∀ (l : List α) (m : α),
      ∃ x, l.foldl
        (fun acc x =>
          match acc with
          | none => some x
          | some m => if keyLtB (key x) (key m) then some x else some m)
        (some m) = some x := by
  intro l
  induction l with
  | nil => intro m; exact ⟨m, rfl⟩
  | cons a t ih =>
    intro m
    simp only [List.foldl_cons]
    by_cases hlt : keyLtB (key a) (key m) = true
    · rw [if_pos hlt]
      exact ih a
    · rw [if_neg hlt]
      exact ih m

theorem get_item_batch_some {t : Tables} {item : OrderGood} {info : BatchInfo}
    (h : get_item_batch t item = some info) :
    ∃ x ∈ eligibleBatches t item,
      info = { batch_code := x.1.printBatchNo, batch_times := x.1.sid,
               bz := x.2.bz, concurrent := x.2.concurrent,
               assessY := x.2.assessY.getD 0, qty := availQty x.2 } ∧
      ∀ y ∈ eligibleBatches t item, keyLtB (batchKey y) (batchKey x) = false := by
  unfold get_item_batch pickMinBy at h
  rw [Option.map_eq_some'] at h
  obtain ⟨x, hx, hinfo⟩ := h
  obtain ⟨hmem, hmin, _⟩ := pickMinBy_spec batchKey (eligibleBatches t item) none x hx
  rcases hmem with hm | hm
  · cases hm
  · exact ⟨x, hm, hinfo.symm, hmin⟩

theorem get_item_batch_none_iff (t : Tables) (item : OrderGood) :
    get_item_batch t item = none ↔ eligibleBatches t item = [] := by
  unfold get_item_batch pickMinBy
  constructor
  · intro h
    rw [Option.map_eq_none'] at h
    cases he : eligibleBatches t item with
    | nil => rfl
    | cons a rest =>
      rw [he] at h
      simp only [List.foldl_cons] at h
      obtain ⟨x, hx⟩ := pickAux_some batchKey rest a
      exact absurd (hx.symm.trans h) (by simp)
  · intro h
    rw [h]
    rfl

/-- C3 (amended): the batch allocator's eligibility uses the clamped
unreserved quantity on-hand − max(in-transit, 0) − max(already-reserved, 0)
(NULL treated as 0) rather than the plain subtraction of the claim; with that
amendment the claim holds: when a batch is returned it is an eligible row of
the namespace's join that is minimal under ascending expiry date, production
date, pack size; every eligible row has strictly positive clamped unreserved
quantity, belongs to the line's product, and matches the pre-selected batch
code and identifier whenever the line carries a batch hint; no batch is
returned exactly when no eligible row exists, and in that case the line-item
loop skips the line (consuming its index) without failing the order. -/
theorem c3_batch_allocator :
    (∀ (t : Tables) (item : OrderGood) (info : BatchInfo),
        get_item_batch t item = some info →
        ∃ x ∈ eligibleBatches t item,
          info = { batch_code := x.1.printBatchNo, batch_times := x.1.sid,
                   bz := x.2.bz, concurrent := x.2.concurrent,
                   assessY := x.2.assessY.getD 0, qty := availQty x.2 } ∧
          ∀ y ∈ eligibleBatches t item, keyLtB (batchKey y) (batchKey x) = false) ∧
    (∀ (t : Tables) (item : OrderGood) (x : SpecificRow × StockRow),
        x ∈ eligibleBatches t item →
        0 < availQty x.2 ∧ x.1.oid = strip3 item.erpGoodsId ∧ x.1.oid ≠ "-1" ∧
        (item.erpStockId ≠ "" →
          x.1.printBatchNo = item.selectedBatchCode ∧
          x.1.sid = item.selectedBatchTimes)) ∧
    (∀ (t : Tables) (item : OrderGood),
        get_item_batch t item = none ↔ eligibleBatches t item = []) ∧
    (∀ (sched : List Nat) (env : Env) (ns : String) (rootId idx : Int)
        (item : OrderGood) (rest : List OrderGood) (c : Conn),
        get_item_batch (c.pending.get ns) item = none →
        insertDetailsLoop sched env ns rootId (item :: rest) idx c =
          insertDetailsLoop sched env ns rootId rest (idx + 1) c) := by
  refine ⟨fun t item info h => get_item_batch_some h, ?_, get_item_batch_none_iff, ?_⟩
  · intro t item x hx
    unfold eligibleBatches at hx
    rw [List.mem_filter] at hx
    obtain ⟨_, hw⟩ := hx
    unfold batchWhere at hw
    simp only [Bool.and_eq_true, Bool.or_eq_true, Bool.not_eq_true', beq_iff_eq,
      beq_eq_false_iff_ne, decide_eq_true_eq] at hw
    obtain ⟨⟨⟨⟨⟨hoid, _⟩, _⟩, hprod⟩, hhint⟩, hqty⟩ := hw
    refine ⟨hqty, hprod, hoid, ?_⟩
    intro hstock
    rcases hhint with hh | hh
    · exact absurd hh hstock
    · exact hh
  · intro sched env ns rootId idx item rest c h
    simp only [insertDetailsLoop, h]

/-- C3 (counterexample): a ledger row with zero on-hand quantity and
reservation counter −3 is eligible under the claim's plain-subtraction
formula (0 − 0 − (−3) = 3 > 0) yet the allocator, which clamps negative
reserved components to zero, returns no batch for the line. -/
theorem c3_eligibility_cex :
    specEligibleBatches t3 item3 ≠ [] ∧ get_item_batch t3 item3 = none := by
  constructor
  · norm_num +decide [specEligibleBatches, batchJoin, t3, item3, spec3, stock3,
      specUnreserved, strip3]
  · norm_num +decide [get_item_batch, pickMinBy, eligibleBatches, batchJoin,
      batchWhere, t3, item3, spec3, stock3, availQty, clampPos, strip3]

/-- C3 witness: on the concrete fixture the allocator returns lot PH1 of
product 10001 and the returned row is minimal among the eligible rows. -/
theorem c3_batch_allocator_w :
    ∃ x ∈ eligibleBatches exTables exItem1,
      ({ batch_code := "PH1", batch_times := 501, bz := 10, concurrent := some 0,
         assessY := 2, qty := 100 } : BatchInfo) =
        { batch_code := x.1.printBatchNo, batch_times := x.1.sid, bz := x.2.bz,
          concurrent := x.2.concurrent, assessY := x.2.assessY.getD 0,
          qty := availQty x.2 } ∧
      ∀ y ∈ eligibleBatches exTables exItem1,
        keyLtB (batchKey y) (batchKey x) = false :=
  c3_batch_allocator.1 exTables exItem1
    { batch_code := "PH1", batch_times := 501, bz := 10, concurrent := some 0,
      assessY := 2, qty := 100 }
    (by norm_num +decide [get_item_batch, pickMinBy, eligibleBatches, batchJoin,
      batchWhere, exTables, exItem1, exSpec1, exStock1, exSpec2, exStock2,
      availQty, clampPos, strip3, keyLtB, batchKey])

/-- C4 (amended): when an inventory-ledger row matches product, batch code
and batch identifier, the profit equals
round(price*qty − (bookedCostAmount/bookedQty)*qty, 2) exactly as claimed,
but the profit rate is round(rawProfit / (price*qty), 2) * 100 computed from
the UNROUNDED profit difference, not from the already-rounded profit; when
no ledger row matches, both values default to 0.0. -/
theorem c4_profit_formulas :
    (∀ (t : Tables) (item : OrderGood) (batch : BatchInfo)
        (b : StockRow) (rest : List StockRow),
        t.stock.filter (fun r =>
            r.product == strip3 item.erpGoodsId &&
            r.batchNo == batch.batch_code &&
            r.batchTimes == batch.batch_times) = b :: rest →
        get_item_profit t item batch =
          { profit := sqlRound2 (item.priceRecords.salePrice * item.quantity -
              (b.costAmount / b.qty.getD 0) * item.quantity)
            profit_rate := sqlRound2 ((item.priceRecords.salePrice * item.quantity -
              (b.costAmount / b.qty.getD 0) * item.quantity) /
              (item.priceRecords.salePrice * item.quantity)) * 100 }) ∧
    (∀ (t : Tables) (item : OrderGood) (batch : BatchInfo),
        t.stock.filter (fun r =>
            r.product == strip3 item.erpGoodsId &&
            r.batchNo == batch.batch_code &&
            r.batchTimes == batch.batch_times) = [] →
        get_item_profit t item batch = { profit := 0, profit_rate := 0 }) := by
  constructor
  · intro t item batch b rest hf
    unfold get_item_profit
    rw [hf]
  · intro t item batch hf
    unfold get_item_profit
    rw [hf]

/-- C4 (counterexample): price 1, quantity 10, booked cost 9954 over booked
quantity 10000.  The raw profit is 0.046; the code computes profit 0.05 and
profit rate round(0.046/10, 2)*100 = 0, while the claim's formula — the
already-rounded profit in the numerator — gives round(0.05/10, 2)*100 = 1. -/
theorem c4_profit_rate_cex :
    (get_item_profit t4 item4 batch4).profit = 1/20 ∧
    (get_item_profit t4 item4 batch4).profit_rate = 0 ∧
    claimedProfitRate 1 10 9954 10000 = 1 := by
  refine ⟨?_, ?_, ?_⟩ <;>
    norm_num +decide [get_item_profit, t4, item4, batch4, stock4, strip3,
      sqlRound2, claimedProfitRate]

/-- C4 witness: the matching-row branch of the theorem evaluated on the
counterexample fixture. -/
theorem c4_profit_formulas_w :
    get_item_profit t4 item4 batch4 =
      { profit := sqlRound2 ((1:ℚ) * 10 - (9954/10000) * 10)
        profit_rate := sqlRound2 (((1:ℚ) * 10 - (9954/10000) * 10) /
          ((1:ℚ) * 10)) * 100 } := by
  have h := c4_profit_formulas.1 t4 item4 batch4 stock4 []
    (by norm_num +decide [t4, item4, batch4, stock4, strip3])
  simpa [item4, batch4, stock4] using h

/-- C7 (amended): the combined remark is always the mapped source label, a
semicolon, the payment method, a semicolon, and the discount annotation
(present exactly when the discount total is positive); the customer note is
the online-paid marker (present exactly when the payment method is online)
followed by the order's free-text message — hence it begins with the marker
whenever payment is online, and for an offline order it begins with the
marker only when the message itself does; these are the values written into
the order-header row, and the spec's example order yields exactly
微信;线上支付;订单优惠:50 with a note beginning with the marker. -/
theorem c7_remark_composition :
    (∀ o : OrderData,
      combined_remark o =
        (if o.source = "wechat" then "微信"
         else if o.source = "app" then "APP"
         else if o.source = "web" then "网页"
         else if o.source = "mini_program" then "小程序"
         else "未知来源") ++ ";" ++ o.payMethod ++ ";" ++
        (if 0 < o.orderDiscountTotal
         then "订单优惠:" ++ toString o.orderDiscountTotal else "")) ∧
    (∀ o : OrderData,
      customer_note o =
        (if o.payMethod = "线上支付" then "线上已付款;" else "") ++ o.message) ∧
    (∀ (env : Env) (rootId : Int) (o : OrderData) (cust : Customer),
      (headerRow env rootId o cust).remark = combined_remark o ∧
      (headerRow env rootId o cust).customerNote = customer_note o) ∧
    combined_remark exOrder2 = "微信;线上支付;订单优惠:50" ∧
    (∃ s, customer_note exOrder2 = "线上已付款;" ++ s) := by
  refine ⟨fun o => rfl, fun o => rfl, fun env rootId o cust => ⟨rfl, rfl⟩, ?_, "", ?_⟩
  · norm_num +decide [combined_remark, get_source, discount_msg, exOrder2]
  · decide

/-- C7 (counterexample): an order paid cash on delivery whose upstream
free-text message itself begins with 线上已付款; produces a customer note
beginning with the online-paid marker although the payment method is not
online — the "exactly when" of the claim fails. -/
theorem c7_note_marker_cex :
    (∃ s, customer_note c7order = "线上已付款;" ++ s) ∧
    c7order.payMethod ≠ "线上支付" := by
  exact ⟨⟨"改天配送", by decide⟩, by decide⟩

/-- C6 (amended): a successful reservation update maps the namespace's
ledger through stockUpdRow and commits (the statement-level commit of
execute_non_query); stockUpdRow never touches on-hand quantity, product,
batch or pack columns; a row in scope (公司机构 explicitly 1, the line's
product, the allocated batch identifier and pack size) with reservation
counter r becomes r + q where q is the allocated quantity; rows out of
scope — including a row whose 公司机构 is NULL, which the allocator admits
via ISNULL(公司机构,1) = 1 but the update's WHERE 公司机构 = 1 never
matches — are unchanged; and across an entire sync_order run from a clean
connection, both the pending and the committed ledgers of both namespaces
differ from the initial ledger at most in reservation counters — the
reservation update is the engine's only stock-affecting write and it never
decrements on-hand quantity. -/
theorem c6_reservation_update :
    (∀ (sched : List Nat) (item : OrderGood) (batch : BatchInfo) (ns : String)
        (c : Conn), c.writeIdx ∉ sched →
        ∃ c', update_stock_concurrency sched item batch ns c = (some (), c') ∧
          (c'.pending.get ns).stock =
            ((c.pending.get ns).stock).map (stockUpdRow item batch) ∧
          c'.committed = c'.pending) ∧
    (∀ (item : OrderGood) (batch : BatchInfo) (b : StockRow),
        (stockUpdRow item batch b).qty = b.qty ∧
        (stockUpdRow item batch b).product = b.product ∧
        (stockUpdRow item batch b).batchTimes = b.batchTimes ∧
        (stockUpdRow item batch b).bz = b.bz) ∧
    (∀ (item : OrderGood) (batch : BatchInfo) (b : StockRow) (rv : ℚ),
        b.company = some 1 → b.product = strip3 item.erpGoodsId →
        b.batchTimes = batch.batch_times → b.bz = batch.bz →
        b.btype.getD 0 = 0 → b.concurrent = some rv →
        (stockUpdRow item batch b).concurrent = some (rv + item.quantity)) ∧
    (∀ (item : OrderGood) (batch : BatchInfo) (b : StockRow),
        ¬(b.company = some 1 ∧ b.product = strip3 item.erpGoodsId ∧
          b.batchTimes = batch.batch_times ∧ b.bz = batch.bz ∧
          b.btype.getD 0 = 0) →
        stockUpdRow item batch b = b) ∧
    (∀ (sched : List Nat) (env : Env) (o : OrderData) (c : Conn),
        c.clean → presFrom c (sync_order sched env o c).2) := by
  refine ⟨?_, ?_, ?_, ?_, ?_⟩
  · intro sched item batch ns c hnf
    refine ⟨{ c with
        pending := c.pending.set ns
          { (c.pending.get ns) with
            stock := ((c.pending.get ns).stock).map (stockUpdRow item batch) },
        committed := c.pending.set ns
          { (c.pending.get ns) with
            stock := ((c.pending.get ns).stock).map (stockUpdRow item batch) },
        writeIdx := c.writeIdx + 1,
        events := c.events ++ [Ev.stmtCommit] }, ?_, ?_, rfl⟩
    · unfold update_stock_concurrency execNonQueryW
      rw [if_neg hnf]
    · rw [DB.get_set_same]
  · intro item batch b
    unfold stockUpdRow
    split <;> exact ⟨rfl, rfl, rfl, rfl⟩
  · intro item batch b rv h1 h2 h3 h4 h5 h6
    unfold stockUpdRow
    rw [if_pos (by simp [h1, h2, h3, h4, h5])]
    simp [h6]
  · intro item batch b hno
    unfold stockUpdRow
    rw [if_neg]
    intro hc
    simp only [Bool.and_eq_true, beq_iff_eq, decide_eq_true_eq] at hc
    obtain ⟨⟨⟨⟨⟨q1, q2⟩, q3⟩, q4⟩, q5⟩, q6⟩ := hc
    exact hno ⟨q1, q2, q3, q4, q6⟩
  · intro sched env o c hc
    exact sync_order_in_presFrom sched env o (get_database_pfx o) c hc

/-- C6 witness: the reservation update on the concrete fixture — row PH1 of
product 10001 with prior counter 0 and allocated quantity 5 — succeeds,
commits, raises the counter to 0 + 5 and changes nothing else; and the
whole-order stock-preservation part instantiated at the concrete run. -/
theorem c6_reservation_update_w :
    (∃ c', update_stock_concurrency [] exItem1
        { batch_code := "PH1", batch_times := 501, bz := 10,
          concurrent := some 0, assessY := 2, qty := 100 } nsStd exConn =
        (some (), c') ∧
        (c'.pending.get nsStd).stock =
          ((exConn.pending.get nsStd).stock).map (stockUpdRow exItem1
            { batch_code := "PH1", batch_times := 501, bz := 10,
              concurrent := some 0, assessY := 2, qty := 100 }) ∧
        c'.committed = c'.pending) ∧
    (stockUpdRow exItem1
        { batch_code := "PH1", batch_times := 501, bz := 10,
          concurrent := some 0, assessY := 2, qty := 100 } exStock1).concurrent =
      some (0 + exItem1.quantity) ∧
    presFrom exConn (sync_order [] exEnv exOrder2 exConn).2 := by
  refine ⟨c6_reservation_update.1 [] exItem1 _ nsStd exConn (by decide), ?_, ?_⟩
  · exact c6_reservation_update.2.2.1 exItem1 _ exStock1 0 (by decide) (by decide)
      (by decide) (by decide) (by decide) (by decide)
  · exact c6_reservation_update.2.2.2.2 [] exEnv exOrder2 exConn rfl

/-- C2 (amended): for an order processed on a fresh trace, a successful
non-duplicate run emits the notification exactly once, and it is emitted
immediately BEFORE the transaction's final commit (after the per-statement
commits), not after it; a failed run emits no notification; an idempotent
duplicate emits no notification. -/
theorem c2_notify_gating (sched : List Nat) (env : Env) (o : OrderData)
    (c : Conn) (hev : c.events = []) :
    (((sync_order sched env o c).1 = true ∧
      order_exists o (get_database_pfx o) c = false) →
      ∃ l, onlyStmt l ∧
        (sync_order sched env o c).2.events =
          l ++ [Ev.notifyEv o.id, Ev.txCommit] ∧
        notifyCount (sync_order sched env o c).2.events = 1) ∧
    ((sync_order sched env o c).1 = false →
      notifyCount (sync_order sched env o c).2.events = 0) ∧
    (order_exists o (get_database_pfx o) c = true →
      notifyCount (sync_order sched env o c).2.events = 0) := by
  have hs : sync_order sched env o c =
      sync_order_in sched env o (get_database_pfx o) c := rfl
  refine ⟨?_, ?_, ?_⟩
  · rintro ⟨hb, hfresh⟩
    rcases hrun : sync_order sched env o c with ⟨b, c'⟩
    rw [hrun] at hb
    simp only [] at hb
    subst hb
    obtain ⟨cust, l, _, _, _, _, sl, hev'⟩ :=
      sync_order_in_success_char hfresh (hs ▸ hrun)
    rw [hev] at hev'
    simp only [List.nil_append] at hev'
    refine ⟨l, sl, ?_, ?_⟩
    · simpa using hev'
    · show notifyCount c'.events = 1
      rw [hev', notifyCount_append, notifyCount_onlyStmt sl]
      rfl
  · intro hb
    obtain ⟨l, sl, htri⟩ := sync_order_in_trace sched env o (get_database_pfx o) c
    rcases htri with ⟨_, hev'⟩ | ⟨ht, _⟩
    · rcases hev' with h | h <;> rw [hs] <;> rw [h, hev]
      · simp only [List.nil_append]
        exact notifyCount_onlyStmt sl
      · simp only [List.nil_append]
        rw [notifyCount_append, notifyCount_onlyStmt sl]
        rfl
    · rw [hs] at hb
      rw [hb] at ht
      cases ht
  · intro hdup
    rcases @sync_order_in_dup_events sched env o (get_database_pfx o) c hdup with h | h <;>
      rw [hs] <;> rw [h, hev]
    · rfl
    · rfl

/-- C2 witness: the concrete one-line order syncs successfully and its trace
ends with the notification followed by the transaction commit, the
notification appearing exactly once. -/
theorem c2_notify_gating_w :
    ∃ l, onlyStmt l ∧
      (sync_order [] exEnv exOrder1 exConn).2.events =
        l ++ [Ev.notifyEv exOrder1.id, Ev.txCommit] ∧
      notifyCount (sync_order [] exEnv exOrder1 exConn).2.events = 1 :=
  (c2_notify_gating [] exEnv exOrder1 exConn rfl).1
    ⟨by norm_num +decide [sync_order, sync_order_in, get_database_pfx, nsStd,
        nsHerb, order_exists, insert_sheet_roots, insert_status_flow,
        update_sheet_root_status, insert_sheet_order, headerRow,
        insert_order_details, insertDetailsLoop, save_mid_order,
        order_details_exist, notify_order_sync_success, execInsertReturningId,
        execNonQueryW, rollback, txcommit, DB.get, DB.set, get_item_batch,
        eligibleBatches, batchJoin, batchWhere, batchKey, keyLtB, pickMinBy,
        availQty, clampPos, strip3, get_item_tax_info, get_item_profit,
        detailRow, stockUpdRow, update_stock_concurrency, build_item_remark,
        combined_remark, customer_note, get_source, discount_msg,
        payment_status, sqlRound2, pyRound2, exEnv, exCust, exConn, exDB,
        exTables, exSpec1, exStock1, exSpec2, exStock2, exItem1, exOrder1,
        emptyTables],
      by decide⟩

/-- C2 (counterexample): on a successful concrete run the notification event
precedes the transaction-commit event in the trace — the notifier is invoked
before, not after, the transaction has been committed. -/
theorem c2_notify_before_commit_cex :
    (sync_order [] exEnv exOrder1 exConn).1 = true ∧
    notifyOnlyAfterTxCommit (sync_order [] exEnv exOrder1 exConn).2.events =
      false := by
  constructor <;>
    norm_num +decide [sync_order, sync_order_in, get_database_pfx, nsStd,
      nsHerb, order_exists, insert_sheet_roots, insert_status_flow,
      update_sheet_root_status, insert_sheet_order, headerRow,
      insert_order_details, insertDetailsLoop, save_mid_order,
      order_details_exist, notify_order_sync_success, execInsertReturningId,
      execNonQueryW, rollback, txcommit, DB.get, DB.set, get_item_batch,
      eligibleBatches, batchJoin, batchWhere, batchKey, keyLtB, pickMinBy,
      availQty, clampPos, strip3, get_item_tax_info, get_item_profit,
      detailRow, stockUpdRow, update_stock_concurrency, build_item_remark,
      combined_remark, customer_note, get_source, discount_msg,
      payment_status, sqlRound2, pyRound2, exEnv, exCust, exConn, exDB,
      exTables, exSpec1, exStock1, exSpec2, exStock2, exItem1, exOrder1,
      emptyTables, notifyOnlyAfterTxCommit, notifyCount, isNotify]

/-- C5 (amended): an order whose business number already exists is a no-op
success PROVIDED it passes the earlier gates — a nonempty customer reference
that resolves to a known customer; under those preconditions the connection
is returned untouched (no writes, no events).  Consequently syncing the same
order twice from a clean fresh state — first run successful — makes the
second call a no-op success and leaves exactly one order-header row with
that business number (one more than initially, where initially there were
none). -/
theorem c5_idempotence :
    (∀ (sched : List Nat) (env : Env) (o : OrderData) (c : Conn) (cust : Customer),
        o.erpCustomerId ≠ "" →
        env.customers (get_database_pfx o) o.erpCustomerNo = some cust →
        order_exists o (get_database_pfx o) c = true →
        sync_order sched env o c = (true, c)) ∧
    (∀ (sched sched2 : List Nat) (env : Env) (o : OrderData) (c c' : Conn),
        c.clean →
        order_exists o (get_database_pfx o) c = false →
        sync_order sched env o c = (true, c') →
        sync_order sched2 env o c' = (true, c') ∧
        c'.committed = c'.pending ∧
        ((c'.committed.get (get_database_pfx o)).sheetOrders.countP
            (fun r => r.no == o.subOrderSn)) = 1) := by
  have hA : ∀ (sched : List Nat) (env : Env) (o : OrderData) (c : Conn)
      (cust : Customer),
      o.erpCustomerId ≠ "" →
      env.customers (get_database_pfx o) o.erpCustomerNo = some cust →
      order_exists o (get_database_pfx o) c = true →
      sync_order sched env o c = (true, c) := by
    intro sched env o c cust hid hcust hdup
    exact sync_order_in_dup_noop hid hcust hdup
  refine ⟨hA, ?_⟩
  intro sched sched2 env o c c' hclean hfresh hrun
  obtain ⟨cust, l, hcu, hid, hcp, hhdr, _, _⟩ :=
    sync_order_in_success_char hfresh hrun
  have hdup' : order_exists o (get_database_pfx o) c' = true := by
    unfold order_exists
    rw [hhdr]
    simp [headerRow]
  have hcount0 : ((c.pending.get (get_database_pfx o)).sheetOrders.countP
      (fun r => r.no == o.subOrderSn)) = 0 := by
    rw [List.countP_eq_zero]
    unfold order_exists at hfresh
    rw [List.any_eq_false] at hfresh
    exact hfresh
  refine ⟨hA sched2 env o c' cust hid hcu hdup', hcp, ?_⟩
  rw [hcp, hhdr, List.countP_append, hcount0]
  simp [headerRow]

/-- C5 (counterexample): order SO1 already exists in the header table, yet
resubmitting it with a missing (falsy) erp_customer_id makes sync_order
return failure, not the claimed idempotent success. -/
theorem c5_duplicate_cex :
    order_exists dupOrderNoCust (get_database_pfx dupOrderNoCust) dupConn = true ∧
    (sync_order [] exEnv dupOrderNoCust dupConn).1 = false := by
  constructor
  · decide
  · decide

/-- C5 witness: the concrete one-line order syncs successfully, and the
idempotence part applied to that run shows the second call is a no-op
success leaving exactly one SO2 header row. -/
theorem c5_idempotence_w :
    sync_order [7] exEnv exOrder1 (sync_order [] exEnv exOrder1 exConn).2 =
      (true, (sync_order [] exEnv exOrder1 exConn).2) ∧
    (sync_order [] exEnv exOrder1 exConn).2.committed =
      (sync_order [] exEnv exOrder1 exConn).2.pending ∧
    (((sync_order [] exEnv exOrder1 exConn).2.committed.get
        (get_database_pfx exOrder1)).sheetOrders.countP
      (fun r => r.no == exOrder1.subOrderSn)) = 1 := by
  have h1 : (sync_order [] exEnv exOrder1 exConn).1 = true := by
    norm_num +decide [sync_order, sync_order_in, get_database_pfx, nsStd,
      nsHerb, order_exists, insert_sheet_roots, insert_status_flow,
      update_sheet_root_status, insert_sheet_order, headerRow,
      insert_order_details, insertDetailsLoop, save_mid_order,
      order_details_exist, notify_order_sync_success, execInsertReturningId,
      execNonQueryW, rollback, txcommit, DB.get, DB.set, get_item_batch,
      eligibleBatches, batchJoin, batchWhere, batchKey, keyLtB, pickMinBy,
      availQty, clampPos, strip3, get_item_tax_info, get_item_profit,
      detailRow, stockUpdRow, update_stock_concurrency, build_item_remark,
      combined_remark, customer_note, get_source, discount_msg,
      payment_status, sqlRound2, pyRound2, exEnv, exCust, exConn, exDB,
      exTables, exSpec1, exStock1, exSpec2, exStock2, exItem1, exOrder1,
      emptyTables]
  have hrun : sync_order [] exEnv exOrder1 exConn =
      (true, (sync_order [] exEnv exOrder1 exConn).2) := by
    rw [← h1]
  exact c5_idempotence.2 [] [7] exEnv exOrder1 exConn _ rfl (by decide) hrun

/-- C1: the atomicity claim FAILS on the code — execute_non_query calls
cursor.commit() after every statement, which in pyodbc commits the whole
connection, so the rollback in sync_order's exception handler cannot undo
earlier writes.  Scenario 1: the write of the LAST line item of a two-line
order is forced to fail (write index 6); sync_order reports failure and
rolls back, yet the committed database still holds the DocumentRoot,
WorkflowStatus, OrderHeader and the first OrderLineDetail row of the order.
Scenario 2: every line has zero eligible batch quantity; the verifier's
zero-detail RuntimeError forces rollback and a failed outcome, yet the
DocumentRoot, OrderHeader and BookkeepingRecord rows remain committed. -/
theorem c1_rollback_ineffective :
    ((sync_order [6] exEnv exOrder2 exConn).1 = false ∧
     ((sync_order [6] exEnv exOrder2 exConn).2.committed.get
        nsStd).sheetRoots.length = 1 ∧
     ((sync_order [6] exEnv exOrder2 exConn).2.committed.get
        nsStd).statusFlows.length = 1 ∧
     ((sync_order [6] exEnv exOrder2 exConn).2.committed.get
        nsStd).sheetOrders.length = 1 ∧
     ((sync_order [6] exEnv exOrder2 exConn).2.committed.get
        nsStd).orderDetails.length = 1) ∧
    ((sync_order [] exEnv exOrder2 noStockConn).1 = false ∧
     ((sync_order [] exEnv exOrder2 noStockConn).2.committed.get
        nsStd).sheetRoots.length = 1 ∧
     ((sync_order [] exEnv exOrder2 noStockConn).2.committed.get
        nsStd).sheetOrders.length = 1 ∧
     ((sync_order [] exEnv exOrder2 noStockConn).2.committed.get
        nsStd).midOrders.length = 1 ∧
     ((sync_order [] exEnv exOrder2 noStockConn).2.committed.get
        nsStd).orderDetails.length = 0) := by
  norm_num +decide [sync_order, sync_order_in, get_database_pfx, nsStd,
    nsHerb, order_exists, insert_sheet_roots, insert_status_flow,
    update_sheet_root_status, insert_sheet_order, headerRow,
    insert_order_details, insertDetailsLoop, save_mid_order,
    order_details_exist, notify_order_sync_success, execInsertReturningId,
    execNonQueryW, rollback, txcommit, DB.get, DB.set, get_item_batch,
    eligibleBatches, batchJoin, batchWhere, batchKey, keyLtB, pickMinBy,
    availQty, clampPos, strip3, get_item_tax_info, get_item_profit,
    detailRow, stockUpdRow, update_stock_concurrency, build_item_remark,
    combined_remark, customer_note, get_source, discount_msg,
    payment_status, sqlRound2, pyRound2, exEnv, exCust, exConn, exDB,
    exTables, exSpec1, exStock1, exSpec2, exStock2, exItem1, exItem2,
    exOrder2, emptyTables, noStockConn, noStockDB, noStockTables]

/-- C6 (counterexample): a ledger row whose 公司机构 column is NULL is
allocated by get_item_batch — its WHERE clause uses ISNULL(公司机构,1) = 1 —
with prior reservation counter r = 0 and allocated quantity q = 5, yet
update_stock_concurrency's WHERE 公司机构 = 1 never matches NULL: after the
reservation update the ledger is unchanged and the row's counter is still 0,
not r + q. -/
theorem c6_null_company_cex :
    get_item_batch t6 item6 = some binfo6 ∧
    stock6.concurrent = some 0 ∧
    item6.quantity = 5 ∧
    ((update_stock_concurrency [] item6 binfo6 nsStd conn6).2.pending.get
        nsStd).stock = [stock6] ∧
    (stockUpdRow item6 binfo6 stock6).concurrent ≠
      some (0 + item6.quantity) := by
  refine ⟨?_, rfl, rfl, ?_, ?_⟩
  · norm_num +decide [get_item_batch, pickMinBy, eligibleBatches, batchJoin,
      batchWhere, t6, item6, spec6, stock6, binfo6, availQty, clampPos, strip3]
  · norm_num +decide [update_stock_concurrency, execNonQueryW, stockUpdRow,
      DB.get, DB.set, nsStd, nsHerb, conn6, t6, stock6, item6, binfo6, strip3,
      emptyTables]
  · norm_num +decide [stockUpdRow, stock6, item6, binfo6, strip3]
